import Mathlib

/-!
# Composition: the `/article` and `/youtube` proxy handlers

A shallow embedding of `main.go` (package `composition`).

The program is glue around the Go standard library and two remote services.
Everything that is not code of `main.go` is taken as data of the call:

* `Env` holds the process configuration (the two tokens) and the standard
  library functions the code calls (`net/url.Parse`, `net/url.QueryEscape`,
  `http.NewRequest`, `json.Unmarshal` at the two target types, the JSON
  encoder, `urlfetch.Client`);
* `Client` is the injected `*http.Client`: what `Do` and `Get` answer;
* every function returns, next to its result, the list of `Event`s it
  caused, in order: the calls on the injected client and the fetcher
  invocations. "No outbound call" is "no such event".

Go's `(value, error)` results are kept as they are: a possibly-nil pointer is
an `Option`, a possibly-nil `error` is an `Option GoError`, where a `GoError`
is the text `err.Error()` gives. A `panic` is a separate outcome.
-/

namespace Composition

/-! ## Data model -/

/-- The text of a Go `error` value, as `err.Error()` returns it. -/
abbrev GoError := String

deriving instance DecidableEq for Except

/-- The constant `MercuryURL`. -/
def MercuryURL : String := "https://mercury.postlight.com/parser?url="

/-- The prefix of the video API address built in `ScrapeYouTube`. -/
def YoutubeVideosURL : String :=
  "https://www.googleapis.com/youtube/v3/videos?part=snippet&id="

def StatusOK : Nat := 200
def StatusBadRequest : Nat := 400
def StatusInternalServerError : Nat := 500

/-- API response for `/article` (`type ArticleResponse struct`). The default
value of every field is Go's zero value, so `{}` is `ArticleResponse{}`. -/
structure ArticleResponse where
  Excerpt : String := ""
  Title : String := ""
  URL : String := ""
  DatePublished : String := ""
deriving DecidableEq, Repr, Inhabited

/-- API response for `/youtube` (`type YoutubeResponse struct`). -/
structure YoutubeResponse where
  Title : String := ""
  URL : String := ""
  AuthorName : String := ""
  Thumbnail : String := ""
  DatePublished : String := ""
  Description : String := ""
deriving DecidableEq, Repr, Inhabited

/-- The anonymous struct `PageInfo` of `GeneratedYoutubeResponse`. -/
structure PageInfo where
  TotalResults : Int := 0
  ResultsPerPage : Int := 0
deriving DecidableEq, Repr, Inhabited

/-- The anonymous struct of one thumbnail (`Default`, `Medium`, `High`). -/
structure Thumbnail where
  URL : String := ""
  Width : Int := 0
  Height : Int := 0
deriving DecidableEq, Repr, Inhabited

/-- The anonymous struct `Thumbnails`. -/
structure Thumbnails where
  Default : Thumbnail := {}
  Medium : Thumbnail := {}
  High : Thumbnail := {}
deriving DecidableEq, Repr, Inhabited

/-- The anonymous struct `Localized`. -/
structure Localized where
  Title : String := ""
  Description : String := ""
deriving DecidableEq, Repr, Inhabited

/-- The anonymous struct `Snippet`. -/
structure Snippet where
  PublishedAt : String := ""
  ChannelID : String := ""
  Title : String := ""
  Description : String := ""
  Thumbnails : Thumbnails := {}
  ChannelTitle : String := ""
  Tags : List String := []
  CategoryID : String := ""
  LiveBroadcastContent : String := ""
  DefaultLanguage : String := ""
  Localized : Localized := {}
deriving DecidableEq, Repr, Inhabited

/-- One element of `Items`. -/
structure Item where
  Kind : String := ""
  Etag : String := ""
  ID : String := ""
  Snippet : Snippet := {}
deriving DecidableEq, Repr, Inhabited

/-- The decode target for the video API (`type GeneratedYoutubeResponse
struct`). -/
structure GeneratedYoutubeResponse where
  Kind : String := ""
  Etag : String := ""
  PageInfo : PageInfo := {}
  Items : List Item := []
deriving DecidableEq, Repr, Inhabited

/-! ## The standard library, as far as the code uses it -/

/-- Go's `url.Values`, a `map[string][]string`. -/
abbrev Values := List (String × List String)

/-- `Values.Get`: the first value associated with the key, or the empty
string when there is none. -/
def Values.Get (v : Values) (key : String) : String :=
  match v.lookup key with
  | some (x :: _) => x
  | _ => ""

/-- A parsed `*url.URL`; the code only ever asks for its `Query()`. -/
structure URL where
  Query : Values
deriving DecidableEq, Repr

/-- The inbound `*http.Request`; the code reads `r.URL` and hands `r` to
`appengine.NewContext`. -/
structure Request where
  URL : URL
deriving DecidableEq, Repr

/-- An outbound `*http.Request` as `http.NewRequest` builds it. -/
structure OutRequest where
  Method : String
  URL : String
  Header : List (String × String) := []
deriving DecidableEq, Repr

/-- `req.Header.Add(key, value)`. -/
def OutRequest.HeaderAdd (req : OutRequest) (key value : String) : OutRequest :=
  { req with Header := req.Header ++ [(key, value)] }

/-- The `Body` of an upstream response, by what `ioutil.ReadAll` gives on it:
the bytes read and the read error, if any. -/
structure Body where
  data : String
  err : Option GoError := none
deriving DecidableEq, Repr

/-- `ioutil.ReadAll(resp.Body)`. -/
def ReadAll (b : Body) : String × Option GoError := (b.data, b.err)

/-- An upstream `*http.Response`. -/
structure HttpResponse where
  StatusCode : Nat
  Body : Body
deriving DecidableEq, Repr

/-- The injected `*http.Client`: the answer of `Do` to a request and of `Get`
to an address. An error is a transport failure. -/
structure Client where
  Do : OutRequest → Except GoError HttpResponse
  Get : String → Except GoError HttpResponse

/-- What the code takes from its surroundings. -/
structure Env where
  /-- `os.Getenv("MERCURY_TOKEN")`, read at start. -/
  MercuryToken : String
  /-- `os.Getenv("YOUTUBE_TOKEN")`, read at start. -/
  YoutubeToken : String
  /-- `net/url.Parse`. -/
  Parse : String → Except GoError URL
  /-- `net/url.QueryEscape`. -/
  QueryEscape : String → String
  /-- `http.NewRequest(method, url, nil)`. -/
  NewRequest : String → String → Except GoError OutRequest
  /-- `json.Unmarshal(data, &v)` for `v : ArticleResponse`: the value of `v`
  afterwards and the error returned. -/
  UnmarshalArticle : String → ArticleResponse → ArticleResponse × Option GoError
  /-- `json.Unmarshal(data, &v)` for `v : GeneratedYoutubeResponse`. -/
  UnmarshalYoutube :
    String → GeneratedYoutubeResponse → GeneratedYoutubeResponse × Option GoError
  /-- The JSON text of an `ArticleResponse`. -/
  MarshalArticle : ArticleResponse → String
  /-- The JSON text of a `YoutubeResponse`. -/
  MarshalYoutube : YoutubeResponse → String
  /-- `urlfetch.Client(appengine.NewContext(r))`. -/
  urlfetchClient : Request → Client

/-- An `http.ResponseWriter`, by the response it builds: the header (what the
handler set and what the writer adds), the status once it is written, and
the body bytes written so far. -/
structure ResponseWriter where
  Header : List (String × String) := []
  Status : Option Nat := none
  Body : String := ""
deriving DecidableEq, Repr

/-- The writer the server hands to a handler. -/
def ResponseWriter.fresh : ResponseWriter := {}

/-- `w.Header().Set(key, value)`. -/
def ResponseWriter.HeaderSet (w : ResponseWriter) (key value : String) : ResponseWriter :=
  { w with Header := (key, value) :: w.Header.filter (fun kv => kv.1 != key) }

/-- `w.Header().Get(key)`, `none` when the key is not set. -/
def ResponseWriter.HeaderGet (w : ResponseWriter) (key : String) : Option String :=
  w.Header.lookup key

/-- `w.WriteHeader(code)`: the first call fixes the status. -/
def ResponseWriter.WriteHeader (w : ResponseWriter) (code : Nat) : ResponseWriter :=
  match w.Status with
  | none => { w with Status := some code }
  | some _ => w

/-- The bytes of a string in UTF-8. -/
def utf8Bytes (cs : List Char) : List Nat :=
  (cs.map (fun c => (String.utf8EncodeChar c).map UInt8.toNat)).flatten

/-- The bytes of an ASCII text. -/
def asciiBytes (s : String) : List Nat := s.data.map Char.toNat

/-- One entry of the signature table of `net/http`'s content sniffing
(`sniff.go`): an HTML tag, a masked pattern, an exact prefix, the MP4 box
test, and the test for text. -/
inductive SniffSig
  | html (tag : List Nat)
  | masked (mask pat : List Nat) (skipWS : Bool) (ct : String)
  | exact (sig : List Nat) (ct : String)
  | mp4
  | text

/-- The content type an entry stands for. -/
def SniffSig.contentType : SniffSig → String
  | .html _ => "text/html; charset=utf-8"
  | .masked _ _ _ ct => ct
  | .exact _ ct => ct
  | .mp4 => "video/mp4"
  | .text => "text/plain; charset=utf-8"

/-- A whitespace byte of the sniffing algorithm. -/
def isWS (b : Nat) : Bool := b = 9 ∨ b = 10 ∨ b = 12 ∨ b = 13 ∨ b = 32

/-- A tag-terminating byte: a space or `>`. -/
def isTT (b : Nat) : Bool := b = 32 ∨ b = 62

/-- `htmlSig.match`: the data starts with the tag, letters compared without
regard to case, and a tag-terminating byte follows. -/
def htmlMatch : List Nat → List Nat → Bool
  | [], d :: _ => isTT d
  | [], [] => false
  | _ :: _, [] => false
  | b :: bs, d :: ds =>
    let db := if 65 ≤ b ∧ b ≤ 90 then Nat.land d 223 else d
    if b = db then htmlMatch bs ds else false

/-- `maskedSig.match`: mask and pattern have one length, the data is at least
as long, and every masked byte of the data is the pattern's. -/
def maskedMatch : List Nat → List Nat → List Nat → Bool
  | [], [], _ => true
  | m :: ms, p :: ps, d :: ds => if Nat.land d m = p then maskedMatch ms ps ds else false
  | _, _, _ => false

/-- `mp4Sig.match`: a first box of type `ftyp`, of a size that is a multiple
of four and within the data, with a brand starting with `mp4`. -/
def mp4Match (data : List Nat) : Bool :=
  if data.length < 12 then false
  else
    let boxSize :=
      ((data.getD 0 0 * 256 + data.getD 1 0) * 256 + data.getD 2 0) * 256 + data.getD 3 0
    if data.length < boxSize ∨ boxSize % 4 ≠ 0 then false
    else if (data.drop 4).take 4 ≠ asciiBytes "ftyp" then false
    else
      (List.range (boxSize / 4)).any
        (fun k => 2 ≤ k ∧ k ≠ 3 ∧ (data.drop (4 * k)).take 3 = asciiBytes "mp4")

/-- `textSig.match`: no byte after the leading white space is a binary data
byte. -/
def textMatch (rest : List Nat) : Bool :=
  rest.all (fun b => ¬ (b ≤ 8 ∨ b = 11 ∨ (14 ≤ b ∧ b ≤ 26) ∨ (28 ≤ b ∧ b ≤ 31)))

/-- An entry matches the data; `rest` is the data after its leading white
space. -/
def SniffSig.isMatch (sig : SniffSig) (data rest : List Nat) : Bool :=
  match sig with
  | .html tag => htmlMatch tag rest
  | .masked mask pat skipWS _ => maskedMatch mask pat (if skipWS then rest else data)
  | .exact pre _ => pre.isPrefixOf data
  | .mp4 => mp4Match data
  | .text => textMatch rest

/-- The table `sniffSignatures`, in its order. -/
def sniffSignatures : List SniffSig :=
  [ .html (asciiBytes "<!DOCTYPE HTML"),
    .html (asciiBytes "<HTML"),
    .html (asciiBytes "<HEAD"),
    .html (asciiBytes "<SCRIPT"),
    .html (asciiBytes "<IFRAME"),
    .html (asciiBytes "<H1"),
    .html (asciiBytes "<DIV"),
    .html (asciiBytes "<FONT"),
    .html (asciiBytes "<TABLE"),
    .html (asciiBytes "<A"),
    .html (asciiBytes "<STYLE"),
    .html (asciiBytes "<TITLE"),
    .html (asciiBytes "<B"),
    .html (asciiBytes "<BODY"),
    .html (asciiBytes "<BR"),
    .html (asciiBytes "<P"),
    .html (asciiBytes "<!--"),
    .masked [255, 255, 255, 255, 255] (asciiBytes "<?xml") true "text/xml; charset=utf-8",
    .exact (asciiBytes "%PDF-") "application/pdf",
    .exact (asciiBytes "%!PS-Adobe-") "application/postscript",
    .masked [255, 255, 0, 0] [254, 255, 0, 0] false "text/plain; charset=utf-16be",
    .masked [255, 255, 0, 0] [255, 254, 0, 0] false "text/plain; charset=utf-16le",
    .masked [255, 255, 255, 0] [239, 187, 191, 0] false "text/plain; charset=utf-8",
    .exact [0, 0, 1, 0] "image/x-icon",
    .exact [0, 0, 2, 0] "image/x-icon",
    .exact (asciiBytes "BM") "image/bmp",
    .exact (asciiBytes "GIF87a") "image/gif",
    .exact (asciiBytes "GIF89a") "image/gif",
    .masked [255, 255, 255, 255, 0, 0, 0, 0, 255, 255, 255, 255, 255, 255]
      (asciiBytes "RIFF" ++ [0, 0, 0, 0] ++ asciiBytes "WEBPVP") false "image/webp",
    .exact ([137] ++ asciiBytes "PNG" ++ [13, 10, 26, 10]) "image/png",
    .exact [255, 216, 255] "image/jpeg",
    .masked [255, 255, 255, 255] (asciiBytes ".snd") false "audio/basic",
    .masked [255, 255, 255, 255, 0, 0, 0, 0, 255, 255, 255, 255]
      (asciiBytes "FORM" ++ [0, 0, 0, 0] ++ asciiBytes "AIFF") false "audio/aiff",
    .masked [255, 255, 255] (asciiBytes "ID3") false "audio/mpeg",
    .masked [255, 255, 255, 255, 255] (asciiBytes "OggS" ++ [0]) false "application/ogg",
    .masked [255, 255, 255, 255, 255, 255, 255, 255] (asciiBytes "MThd" ++ [0, 0, 0, 6]) false
      "audio/midi",
    .masked [255, 255, 255, 255, 0, 0, 0, 0, 255, 255, 255, 255]
      (asciiBytes "RIFF" ++ [0, 0, 0, 0] ++ asciiBytes "AVI ") false "video/avi",
    .masked [255, 255, 255, 255, 0, 0, 0, 0, 255, 255, 255, 255]
      (asciiBytes "RIFF" ++ [0, 0, 0, 0] ++ asciiBytes "WAVE") false "audio/wave",
    .mp4,
    .exact [26, 69, 223, 163] "video/webm",
    .masked (List.replicate 34 0 ++ [255, 255]) (List.replicate 34 0 ++ asciiBytes "LP") false
      "application/vnd.ms-fontobject",
    .exact [0, 1, 0, 0] "font/ttf",
    .exact (asciiBytes "OTTO") "font/otf",
    .exact (asciiBytes "ttcf") "font/collection",
    .exact (asciiBytes "wOFF") "font/woff",
    .exact (asciiBytes "wOF2") "font/woff2",
    .exact [31, 139, 8] "application/x-gzip",
    .exact (asciiBytes "PK" ++ [3, 4]) "application/zip",
    .exact (asciiBytes "Rar!" ++ [26, 7, 0]) "application/x-rar-compressed",
    .exact (asciiBytes "Rar!" ++ [26, 7, 1, 0]) "application/x-rar-compressed",
    .exact [0, 97, 115, 109] "application/wasm",
    .text ]

/-- `http.DetectContentType(data)`: the content type of the first entry of
the table that matches the first 512 bytes, else `application/octet-stream`. -/
def DetectContentType (data : String) : String :=
  let bytes := (utf8Bytes data.data).take 512
  let rest := bytes.dropWhile isWS
  match sniffSignatures.find? (fun sig => sig.isMatch bytes rest) with
  | some sig => sig.contentType
  | none => "application/octet-stream"

/-- `w.Write(data)`: writes the status 200 first if none was written; when
bytes are written and the header has no `Content-Type`, adds the one sniffed
from these bytes. (Later versions of the library also leave the type alone
when a `Content-Encoding` is set; no handler here sets one.) -/
def ResponseWriter.Write (w : ResponseWriter) (data : String) : ResponseWriter :=
  let w1 := w.WriteHeader StatusOK
  let w2 :=
    if data ≠ "" ∧ w1.HeaderGet "Content-Type" = none then
      w1.HeaderSet "Content-Type" (DetectContentType data)
    else w1
  { w2 with Body := w2.Body ++ data }

/-- `http.Error(w, error, code)`: sets the plain-text content type, writes the
status and prints the message as one line. -/
def httpError (w : ResponseWriter) (error : String) (code : Nat) : ResponseWriter :=
  let w1 := w.HeaderSet "Content-Type" "text/plain; charset=utf-8"
  let w2 := w1.HeaderSet "X-Content-Type-Options" "nosniff"
  let w3 := w2.WriteHeader code
  w3.Write (error ++ "\n")

/-- `json.NewEncoder(w).Encode(v)` for a pointer `v`: the JSON text of the
value (`null` for a nil pointer) followed by a newline. -/
def Encode {α : Type} (marshal : α → String) (w : ResponseWriter) (v : Option α) :
    ResponseWriter :=
  match v with
  | none => w.Write ("null" ++ "\n")
  | some x => w.Write (marshal x ++ "\n")

/-! ## Observable actions -/

/-- What a run does that the claims speak of. -/
inductive Event
  | scrapeArticle (url : String)
  | scrapeYouTube (rawUrl : String)
  | clientDo (req : OutRequest)
  | clientGet (url : String)
deriving DecidableEq, Repr

/-- The event is a call on the injected client. -/
def Event.isOutbound : Event → Bool
  | .clientDo _ => true
  | .clientGet _ => true
  | _ => false

/-- How a call of `ScrapeYouTube` ends: it returns its two results, or it
panics. -/
inductive Outcome (α : Type)
  | returned (val : Option α) (err : Option GoError)
  | panicked (err : GoError)
deriving DecidableEq, Repr

/-- How a handler ends: it returns, leaving the writer as given, or a panic
passes through it. -/
inductive Handled
  | done (w : ResponseWriter)
  | panicked (err : GoError) (w : ResponseWriter)
deriving DecidableEq, Repr

/-! ## The fetchers -/

/-- `func ScrapeArticle(url string, client *http.Client) (*ArticleResponse, error)`. -/
def ScrapeArticle (env : Env) (url : String) (client : Client) :
    (Option ArticleResponse × Option GoError) × List Event :=
  match env.NewRequest "GET" (MercuryURL ++ url) with
  | .error err => ((none, some err), [])
  | .ok req0 =>
    let req := req0.HeaderAdd "x-api-key" env.MercuryToken
    match client.Do req with
    | .error err => ((none, some err), [.clientDo req])
    | .ok resp =>
      match ReadAll resp.Body with
      | (_, some err) => ((none, some err), [.clientDo req])
      | (bodyBytes, none) =>
        let artResp : ArticleResponse := {}
        let (artResp, err) := env.UnmarshalArticle bodyBytes artResp
        ((some artResp, err), [.clientDo req])

/-- The address `ScrapeYouTube` asks the video API for. -/
def youtubeTarget (env : Env) (videoID : String) : String :=
  YoutubeVideosURL ++ env.QueryEscape videoID ++ "&key=" ++ env.YoutubeToken

/-- `func ScrapeYouTube(rawUrl string, client *http.Client) (*YoutubeResponse, error)`. -/
def ScrapeYouTube (env : Env) (rawUrl : String) (client : Client) :
    Outcome YoutubeResponse × List Event :=
  match env.Parse rawUrl with
  | .error err => (.returned none (some err), [])
  | .ok parsedUrl =>
    let videoID := parsedUrl.Query.Get "v"
    if videoID = "" then
      (.returned none (some "Missing video ID"), [])
    else
      let target := youtubeTarget env videoID
      match client.Get target with
      | .error err => (.panicked err, [.clientGet target])
      | .ok resp =>
        match ReadAll resp.Body with
        | (_, some err) => (.returned none (some err), [.clientGet target])
        | (bodyBytes, none) =>
          let genYTResp : GeneratedYoutubeResponse := {}
          match env.UnmarshalYoutube bodyBytes genYTResp with
          | (_, some err) => (.returned none (some err), [.clientGet target])
          | (genYTResp, none) =>
            match genYTResp.Items with
            | [] => (.returned none (some "Could Not Find Video"), [.clientGet target])
            | item0 :: _ =>
              let ytResp : YoutubeResponse :=
                { Title := item0.Snippet.Title
                  URL := rawUrl
                  AuthorName := item0.Snippet.ChannelTitle
                  Thumbnail := item0.Snippet.Thumbnails.Default.URL
                  DatePublished := item0.Snippet.PublishedAt
                  Description := item0.Snippet.Description }
              (.returned (some ytResp) none, [.clientGet target])

/-! ## The handlers -/

/-- `func HandleArticle(w http.ResponseWriter, r *http.Request)`. -/
def HandleArticle (env : Env) (w : ResponseWriter) (r : Request) : Handled × List Event :=
  let url := r.URL.Query.Get "url"
  if url = "" then
    (.done (httpError w "Missing URL Parameter" StatusBadRequest), [])
  else
    match ScrapeArticle env url (env.urlfetchClient r) with
    | ((_, some err), tr) =>
      (.done (httpError w err StatusInternalServerError), .scrapeArticle url :: tr)
    | ((resp, none), tr) =>
      (.done (Encode env.MarshalArticle w resp), .scrapeArticle url :: tr)

/-- `func HandleYoutube(w http.ResponseWriter, r *http.Request)`. -/
def HandleYoutube (env : Env) (w : ResponseWriter) (r : Request) : Handled × List Event :=
  let url := r.URL.Query.Get "url"
  if url = "" then
    (.done (httpError w "Missing URL Parameter" StatusBadRequest), [])
  else
    match ScrapeYouTube env url (env.urlfetchClient r) with
    | (.panicked err, tr) => (.panicked err w, .scrapeYouTube url :: tr)
    | (.returned _ (some err), tr) =>
      (.done (httpError w err StatusInternalServerError), .scrapeYouTube url :: tr)
    | (.returned resp none, tr) =>
      (.done (Encode env.MarshalYoutube w resp), .scrapeYouTube url :: tr)

/-! ## A model of `encoding/json`

The universally quantified results below hold for every `Env`. To run the
code on concrete upstream bodies a decoder is needed; this is a model of
`json.Unmarshal` for the two target types: the scanner (syntax is checked
over the whole input before anything is stored), then the stores into the
struct fields (keys matched exactly or, failing that, case-insensitively;
unknown keys skipped; `null` leaves a field as it is; a value of the wrong
kind leaves the field as it is, decoding goes on, and the first such error is
the one returned). Input is a string of characters, so ill-formed UTF-8 does
not arise; the scanner's limit on the nesting depth is not modelled. -/

/-- A scanned JSON value. A number keeps its literal. -/
inductive JSON
  | null
  | bool (b : Bool)
  | number (lit : String)
  | string (s : String)
  | array (elems : List JSON)
  | object (members : List (String × JSON))

/-- The name `UnmarshalTypeError.Value` gives the kind of a JSON value. -/
def JSON.kind : JSON → String
  | .null => "null"
  | .bool _ => "bool"
  | .number _ => "number"
  | .string _ => "string"
  | .array _ => "array"
  | .object _ => "object"

def hexDigit (n : Nat) : Char :=
  if n < 10 then Char.ofNat (48 + n) else Char.ofNat (87 + n)

/-- The scanner's `quoteChar`, applied to the first byte of the character. -/
def quoteChar (c : Char) : String :=
  let b : Nat := match String.utf8EncodeChar c with
    | x :: _ => x.toNat
    | [] => 0
  if b = 39 then "'\\''"
  else if b = 34 then "'\"'"
  else if b = 92 then "'\\\\'"
  else if b = 7 then "'\\a'"
  else if b = 8 then "'\\b'"
  else if b = 12 then "'\\f'"
  else if b = 10 then "'\\n'"
  else if b = 13 then "'\\r'"
  else if b = 9 then "'\\t'"
  else if b = 11 then "'\\v'"
  else if b < 32 ∨ b = 127 then
    String.mk ['\'', '\\', 'x', hexDigit (b / 16), hexDigit (b % 16), '\'']
  else String.mk ['\'', Char.ofNat b, '\'']

/-- The text of a `SyntaxError` at character `c`. -/
def invalidChar (c : Char) (context : String) : GoError :=
  "invalid character " ++ quoteChar c ++ " " ++ context

def unexpectedEnd : GoError := "unexpected end of JSON input"

def isSpace (c : Char) : Bool :=
  c = ' ' ∨ c = '\t' ∨ c = '\r' ∨ c = '\n'

def skipSpace : List Char → List Char
  | [] => []
  | c :: cs => if isSpace c then skipSpace cs else c :: cs

def hexVal (c : Char) : Option Nat :=
  if '0' ≤ c ∧ c ≤ '9' then some (c.toNat - 48)
  else if 'a' ≤ c ∧ c ≤ 'f' then some (c.toNat - 87)
  else if 'A' ≤ c ∧ c ≤ 'F' then some (c.toNat - 55)
  else none

/-- Four hexadecimal digits of a `\u` escape. -/
def scanHex4 : List Char → Except GoError (Nat × List Char)
  | a :: b :: c :: d :: rest =>
    match hexVal a, hexVal b, hexVal c, hexVal d with
    | some x, some y, some z, some w => .ok (((x * 16 + y) * 16 + z) * 16 + w, rest)
    | none, _, _, _ => .error (invalidChar a "in \\u hexadecimal character escape")
    | _, none, _, _ => .error (invalidChar b "in \\u hexadecimal character escape")
    | _, _, none, _ => .error (invalidChar c "in \\u hexadecimal character escape")
    | _, _, _, none => .error (invalidChar d "in \\u hexadecimal character escape")
  | a :: rest =>
    match hexVal a with
    | none => .error (invalidChar a "in \\u hexadecimal character escape")
    | some _ =>
      match rest with
      | b :: rest2 =>
        match hexVal b with
        | none => .error (invalidChar b "in \\u hexadecimal character escape")
        | some _ =>
          match rest2 with
          | c :: _ =>
            match hexVal c with
            | none => .error (invalidChar c "in \\u hexadecimal character escape")
            | some _ => .error unexpectedEnd
          | [] => .error unexpectedEnd
      | [] => .error unexpectedEnd
  | [] => .error unexpectedEnd

/-- The replacement character U+FFFD. -/
def replacementChar : Char := Char.ofNat 65533

/-- The body of a string literal, after its opening quote: the characters so
far (in reverse) and the rest of the input; gives the unquoted string. A
`\u` escape of a high surrogate counts with the low surrogate escape after
it; a surrogate escape on its own becomes U+FFFD. -/
def scanString : Nat → List Char → List Char → Except GoError (String × List Char)
  | 0, _, _ => .error unexpectedEnd
  | _ + 1, _, [] => .error unexpectedEnd
  | fuel + 1, acc, c :: cs =>
    if c = '"' then .ok (String.mk acc.reverse, cs)
    else if c = '\\' then
      match cs with
      | [] => .error unexpectedEnd
      | e :: rest =>
        if e = '"' then scanString fuel ('"' :: acc) rest
        else if e = '\\' then scanString fuel ('\\' :: acc) rest
        else if e = '/' then scanString fuel ('/' :: acc) rest
        else if e = 'b' then scanString fuel (Char.ofNat 8 :: acc) rest
        else if e = 'f' then scanString fuel (Char.ofNat 12 :: acc) rest
        else if e = 'n' then scanString fuel ('\n' :: acc) rest
        else if e = 'r' then scanString fuel ('\r' :: acc) rest
        else if e = 't' then scanString fuel ('\t' :: acc) rest
        else if e = 'u' then
          match scanHex4 rest with
          | .error err => .error err
          | .ok (n, rest2) =>
            if 55296 ≤ n ∧ n < 56320 then
              -- a high surrogate: valid only with a low surrogate escape next
              match rest2 with
              | '\\' :: 'u' :: rest3 =>
                match scanHex4 rest3 with
                | .ok (m, rest4) =>
                  if 56320 ≤ m ∧ m < 57344 then
                    scanString fuel
                      (Char.ofNat (65536 + (n - 55296) * 1024 + (m - 56320)) :: acc) rest4
                  else scanString fuel (replacementChar :: acc) rest2
                | .error _ => scanString fuel (replacementChar :: acc) rest2
              | _ => scanString fuel (replacementChar :: acc) rest2
            else if 56320 ≤ n ∧ n < 57344 then
              scanString fuel (replacementChar :: acc) rest2
            else scanString fuel (Char.ofNat n :: acc) rest2
        else .error (invalidChar e "in string escape code")
    else if c.toNat < 32 then .error (invalidChar c "in string literal")
    else scanString fuel (c :: acc) cs

def isDigit (c : Char) : Bool := '0' ≤ c ∧ c ≤ '9'

/-- A run of digits: the digits and the rest. -/
def takeDigits : List Char → List Char × List Char
  | [] => ([], [])
  | c :: cs =>
    if isDigit c then
      let (ds, rest) := takeDigits cs
      (c :: ds, rest)
    else ([], c :: cs)

/-- The exponent part of a number, if one starts here. -/
def scanExponent (lit : List Char) : List Char → Except GoError (List Char × List Char)
  | e :: cs =>
    if e = 'e' ∨ e = 'E' then
      match cs with
      | [] => .error unexpectedEnd
      | s :: cs2 =>
        if s = '+' ∨ s = '-' then
          match cs2 with
          | [] => .error unexpectedEnd
          | d :: _ =>
            if isDigit d then
              let (ds, rest) := takeDigits cs2
              .ok (lit ++ [e, s] ++ ds, rest)
            else .error (invalidChar d "in exponent of numeric literal")
        else if isDigit s then
          let (ds, rest) := takeDigits (s :: cs2)
          .ok (lit ++ [e] ++ ds, rest)
        else .error (invalidChar s "in exponent of numeric literal")
    else .ok (lit, e :: cs)
  | [] => .ok (lit, [])

/-- The fraction and exponent parts of a number, after its integer part. -/
def scanFraction (lit : List Char) : List Char → Except GoError (List Char × List Char)
  | '.' :: cs =>
    match cs with
    | [] => .error unexpectedEnd
    | d :: _ =>
      if isDigit d then
        let (ds, rest) := takeDigits cs
        scanExponent (lit ++ ['.'] ++ ds) rest
      else .error (invalidChar d "after decimal point in numeric literal")
  | cs => scanExponent lit cs

/-- A number literal whose sign, if any, is already in `lit`. -/
def scanNumber (lit : List Char) : List Char → Except GoError (List Char × List Char)
  | [] => .error unexpectedEnd
  | c :: cs =>
    if c = '0' then scanFraction (lit ++ ['0']) cs
    else if isDigit c then
      let (ds, rest) := takeDigits (c :: cs)
      scanFraction (lit ++ ds) rest
    else .error (invalidChar c "in numeric literal")

/-- The rest of a literal `true`, `false` or `null` after its first letter. -/
def scanLiteral (name : String) : List Char → List Char → Except GoError (List Char)
  | [], cs => .ok cs
  | _ :: _, [] => .error unexpectedEnd
  | w :: ws, c :: cs =>
    if c = w then scanLiteral name ws cs
    else .error (invalidChar c ("in literal " ++ name ++ " (expecting " ++ quoteChar w ++ ")"))

mutual
/-- One value, leading white space skipped. -/
def scanValue : Nat → List Char → Except GoError (JSON × List Char)
  | 0, _ => .error unexpectedEnd
  | fuel + 1, input =>
    match skipSpace input with
    | [] => .error unexpectedEnd
    | c :: cs =>
      if c = Char.ofNat 123 then
        match skipSpace cs with
        | [] => .error unexpectedEnd
        | d :: ds =>
          if d = Char.ofNat 125 then .ok (.object [], ds)
          else
            match scanMembers fuel (d :: ds) with
            | .error err => .error err
            | .ok (ms, rest) => .ok (.object ms, rest)
      else if c = '[' then
        match skipSpace cs with
        | [] => .error unexpectedEnd
        | d :: ds =>
          if d = ']' then .ok (.array [], ds)
          else
            match scanElems fuel (d :: ds) with
            | .error err => .error err
            | .ok (es, rest) => .ok (.array es, rest)
      else if c = '"' then
        match scanString (cs.length + 1) [] cs with
        | .error err => .error err
        | .ok (s, rest) => .ok (.string s, rest)
      else if c = '-' then
        match scanNumber ['-'] cs with
        | .error err => .error err
        | .ok (lit, rest) => .ok (.number (String.mk lit), rest)
      else if isDigit c then
        match scanNumber [] (c :: cs) with
        | .error err => .error err
        | .ok (lit, rest) => .ok (.number (String.mk lit), rest)
      else if c = 't' then
        match scanLiteral "true" ['r', 'u', 'e'] cs with
        | .error err => .error err
        | .ok rest => .ok (.bool true, rest)
      else if c = 'f' then
        match scanLiteral "false" ['a', 'l', 's', 'e'] cs with
        | .error err => .error err
        | .ok rest => .ok (.bool false, rest)
      else if c = 'n' then
        match scanLiteral "null" ['u', 'l', 'l'] cs with
        | .error err => .error err
        | .ok rest => .ok (.null, rest)
      else .error (invalidChar c "looking for beginning of value")
/-- The members of an object from a key on, up to the closing brace. -/
def scanMembers : Nat → List Char → Except GoError (List (String × JSON) × List Char)
  | 0, _ => .error unexpectedEnd
  | fuel + 1, input =>
    match skipSpace input with
    | [] => .error unexpectedEnd
    | c :: cs =>
      if c = '"' then
        match scanString (cs.length + 1) [] cs with
        | .error err => .error err
        | .ok (key, rest) =>
          match skipSpace rest with
          | [] => .error unexpectedEnd
          | d :: ds =>
            if d = ':' then
              match scanValue fuel ds with
              | .error err => .error err
              | .ok (v, rest2) =>
                match skipSpace rest2 with
                | [] => .error unexpectedEnd
                | e :: es =>
                  if e = ',' then
                    match scanMembers fuel es with
                    | .error err => .error err
                    | .ok (ms, rest3) => .ok ((key, v) :: ms, rest3)
                  else if e = Char.ofNat 125 then .ok ([(key, v)], es)
                  else .error (invalidChar e "after object key:value pair")
            else .error (invalidChar d "after object key")
      else .error (invalidChar c "looking for beginning of object key string")
/-- The elements of an array from a value on, up to the closing bracket. -/
def scanElems : Nat → List Char → Except GoError (List JSON × List Char)
  | 0, _ => .error unexpectedEnd
  | fuel + 1, input =>
    match scanValue fuel input with
    | .error err => .error err
    | .ok (v, rest) =>
      match skipSpace rest with
      | [] => .error unexpectedEnd
      | e :: es =>
        if e = ',' then
          match scanElems fuel es with
          | .error err => .error err
          | .ok (vs, rest2) => .ok (v :: vs, rest2)
        else if e = ']' then .ok ([v], es)
        else .error (invalidChar e "after array element")
end

/-- The whole input as one JSON value (`checkValid`, then the scan). Every
step of the scan consumes a character, so the length of the input bounds its
depth. -/
def scanJSON (data : String) : Except GoError JSON :=
  match scanValue (data.length + 1) data.data with
  | .error err => .error err
  | .ok (v, rest) =>
    match skipSpace rest with
    | [] => .ok v
    | c :: _ => .error (invalidChar c "after top-level value")

/-! ### Stores into the target types -/

/-- Where a store happens: `none` at the top level, else the name of the
struct type being filled (empty for an anonymous struct) and the JSON names
of the fields on the way down. -/
abbrev Ctx := Option (String × List String)

/-- The text of an `UnmarshalTypeError`. -/
def typeError (value : String) (ctx : Ctx) (goType : String) : GoError :=
  match ctx with
  | none => "json: cannot unmarshal " ++ value ++ " into Go value of type " ++ goType
  | some (structName, path) =>
    "json: cannot unmarshal " ++ value ++ " into Go struct field " ++ structName ++ "."
      ++ ".".intercalate path ++ " of type " ++ goType

/-- The earlier of two saved errors. -/
def firstError : Option GoError → Option GoError → Option GoError
  | some e, _ => some e
  | none, e => e

/-- A decoder of a JSON value into a variable of type `α`: the value of the
variable afterwards and the error saved, if any. -/
abbrev Store (α : Type) := Ctx → JSON → α → α × Option GoError

/-- A store into a `string`. -/
def storeString : Store String
  | _, .string s, _ => (s, none)
  | _, .null, cur => (cur, none)
  | ctx, j, cur => (cur, some (typeError j.kind ctx "string"))

/-- The value of a number literal as an `int`, when it is an integer literal
in the 64-bit range. -/
def parseInt (lit : String) : Option Int :=
  let (neg, ds) := match lit.data with
    | '-' :: ds => (true, ds)
    | ds => (false, ds)
  if ds ≠ [] ∧ ds.all isDigit then
    let n : Nat := ds.foldl (fun acc c => acc * 10 + (c.toNat - 48)) 0
    if neg then (if n ≤ 2 ^ 63 then some (-(n : Int)) else none)
    else (if n < 2 ^ 63 then some (n : Int) else none)
  else none

/-- A store into an `int`. -/
def storeInt : Store Int
  | ctx, .number lit, cur =>
    match parseInt lit with
    | some n => (n, none)
    | none => (cur, some (typeError ("number " ++ lit) ctx "int"))
  | _, .null, cur => (cur, none)
  | ctx, j, cur => (cur, some (typeError j.kind ctx "int"))

/-- The folding of a key for the case-insensitive match of field names. -/
def foldChar (c : Char) : Char :=
  if 'a' ≤ c ∧ c ≤ 'z' then Char.ofNat (c.toNat - 32)
  else if c.toNat = 383 then 'S'
  else if c.toNat = 8490 then 'K'
  else c

def foldName (s : String) : List Char := s.data.map foldChar

/-- The field a key stands for: the one with exactly that JSON name, else the
first one equal to it under folding. -/
def resolveField (names : List String) (key : String) : Option String :=
  match names.find? (fun n => n = key) with
  | some n => some n
  | none => names.find? (fun n => foldName n = foldName key)

/-- A store into a struct with the given JSON field names: each member whose
key stands for a field is stored into that field, in order. -/
def storeStruct {α : Type} (goType structName : String) (names : List String)
    (field : String → Store α) : Store α
  | _, .null, cur => (cur, none)
  | ctx, .object members, cur =>
    let path : List String := match ctx with
      | some (_, p) => p
      | none => []
    members.foldl
      (fun (acc : α × Option GoError) (kv : String × JSON) =>
        match resolveField names kv.1 with
        | none => acc
        | some name =>
          let r := field name (some (structName, path ++ [name])) kv.2 acc.1
          (r.1, firstError acc.2 r.2))
      (cur, none)
  | ctx, j, cur => (cur, some (typeError j.kind ctx goType))

/-- A store into a slice: every element of the array is stored into a zero
value. -/
def storeSlice {α : Type} (goType : String) (zero : α) (elem : Store α) : Store (List α)
  | _, .null, _ => ([], none)
  | ctx, .array elems, _ =>
    elems.foldl
      (fun (acc : List α × Option GoError) (j : JSON) =>
        let r := elem ctx j zero
        (acc.1 ++ [r.1], firstError acc.2 r.2))
      ([], none)
  | ctx, j, cur => (cur, some (typeError j.kind ctx goType))

/-- The text `reflect` prints for an anonymous struct type, from the Go name,
the type and the JSON name of each field. -/
def goStructType (fields : List (String × String × String)) : String :=
  "struct \x7b " ++
    "; ".intercalate
      (fields.map (fun f => f.1 ++ " " ++ f.2.1 ++ " \"json:\\\"" ++ f.2.2 ++ "\\\"\""))
    ++ " \x7d"

def pageInfoType : String :=
  goStructType [("TotalResults", "int", "totalResults"),
    ("ResultsPerPage", "int", "resultsPerPage")]

def thumbnailType : String :=
  goStructType [("URL", "string", "url"), ("Width", "int", "width"), ("Height", "int", "height")]

def thumbnailsType : String :=
  goStructType [("Default", thumbnailType, "default"), ("Medium", thumbnailType, "medium"),
    ("High", thumbnailType, "high")]

def localizedType : String :=
  goStructType [("Title", "string", "title"), ("Description", "string", "description")]

def snippetType : String :=
  goStructType [("PublishedAt", "string", "publishedAt"), ("ChannelID", "string", "channelId"),
    ("Title", "string", "title"), ("Description", "string", "description"),
    ("Thumbnails", thumbnailsType, "thumbnails"), ("ChannelTitle", "string", "channelTitle"),
    ("Tags", "[]string", "tags"), ("CategoryID", "string", "categoryId"),
    ("LiveBroadcastContent", "string", "liveBroadcastContent"),
    ("DefaultLanguage", "string", "defaultLanguage"), ("Localized", localizedType, "localized")]

def itemType : String :=
  goStructType [("Kind", "string", "kind"), ("Etag", "string", "etag"), ("ID", "string", "id"),
    ("Snippet", snippetType, "snippet")]

/-- The store into an `ArticleResponse`, by its `json` tags. -/
def storeArticle : Store ArticleResponse :=
  storeStruct "composition.ArticleResponse" "ArticleResponse"
    ["excerpt", "title", "url", "date_published"]
    (fun name ctx j cur =>
      if name = "excerpt" then
        let r := storeString ctx j cur.Excerpt
        ({ cur with Excerpt := r.1 }, r.2)
      else if name = "title" then
        let r := storeString ctx j cur.Title
        ({ cur with Title := r.1 }, r.2)
      else if name = "url" then
        let r := storeString ctx j cur.URL
        ({ cur with URL := r.1 }, r.2)
      else
        let r := storeString ctx j cur.DatePublished
        ({ cur with DatePublished := r.1 }, r.2))

def storePageInfo : Store PageInfo :=
  storeStruct pageInfoType "" ["totalResults", "resultsPerPage"]
    (fun name ctx j cur =>
      if name = "totalResults" then
        let r := storeInt ctx j cur.TotalResults
        ({ cur with TotalResults := r.1 }, r.2)
      else
        let r := storeInt ctx j cur.ResultsPerPage
        ({ cur with ResultsPerPage := r.1 }, r.2))

def storeThumbnail : Store Thumbnail :=
  storeStruct thumbnailType "" ["url", "width", "height"]
    (fun name ctx j cur =>
      if name = "url" then
        let r := storeString ctx j cur.URL
        ({ cur with URL := r.1 }, r.2)
      else if name = "width" then
        let r := storeInt ctx j cur.Width
        ({ cur with Width := r.1 }, r.2)
      else
        let r := storeInt ctx j cur.Height
        ({ cur with Height := r.1 }, r.2))

def storeThumbnails : Store Thumbnails :=
  storeStruct thumbnailsType "" ["default", "medium", "high"]
    (fun name ctx j cur =>
      if name = "default" then
        let r := storeThumbnail ctx j cur.Default
        ({ cur with Default := r.1 }, r.2)
      else if name = "medium" then
        let r := storeThumbnail ctx j cur.Medium
        ({ cur with Medium := r.1 }, r.2)
      else
        let r := storeThumbnail ctx j cur.High
        ({ cur with High := r.1 }, r.2))

def storeLocalized : Store Localized :=
  storeStruct localizedType "" ["title", "description"]
    (fun name ctx j cur =>
      if name = "title" then
        let r := storeString ctx j cur.Title
        ({ cur with Title := r.1 }, r.2)
      else
        let r := storeString ctx j cur.Description
        ({ cur with Description := r.1 }, r.2))

def storeSnippet : Store Snippet :=
  storeStruct snippetType ""
    ["publishedAt", "channelId", "title", "description", "thumbnails", "channelTitle", "tags",
      "categoryId", "liveBroadcastContent", "defaultLanguage", "localized"]
    (fun name ctx j cur =>
      if name = "publishedAt" then
        let r := storeString ctx j cur.PublishedAt
        ({ cur with PublishedAt := r.1 }, r.2)
      else if name = "channelId" then
        let r := storeString ctx j cur.ChannelID
        ({ cur with ChannelID := r.1 }, r.2)
      else if name = "title" then
        let r := storeString ctx j cur.Title
        ({ cur with Title := r.1 }, r.2)
      else if name = "description" then
        let r := storeString ctx j cur.Description
        ({ cur with Description := r.1 }, r.2)
      else if name = "thumbnails" then
        let r := storeThumbnails ctx j cur.Thumbnails
        ({ cur with Thumbnails := r.1 }, r.2)
      else if name = "channelTitle" then
        let r := storeString ctx j cur.ChannelTitle
        ({ cur with ChannelTitle := r.1 }, r.2)
      else if name = "tags" then
        let r := storeSlice "[]string" "" storeString ctx j cur.Tags
        ({ cur with Tags := r.1 }, r.2)
      else if name = "categoryId" then
        let r := storeString ctx j cur.CategoryID
        ({ cur with CategoryID := r.1 }, r.2)
      else if name = "liveBroadcastContent" then
        let r := storeString ctx j cur.LiveBroadcastContent
        ({ cur with LiveBroadcastContent := r.1 }, r.2)
      else if name = "defaultLanguage" then
        let r := storeString ctx j cur.DefaultLanguage
        ({ cur with DefaultLanguage := r.1 }, r.2)
      else
        let r := storeLocalized ctx j cur.Localized
        ({ cur with Localized := r.1 }, r.2))

def storeItem : Store Item :=
  storeStruct itemType "" ["kind", "etag", "id", "snippet"]
    (fun name ctx j cur =>
      if name = "kind" then
        let r := storeString ctx j cur.Kind
        ({ cur with Kind := r.1 }, r.2)
      else if name = "etag" then
        let r := storeString ctx j cur.Etag
        ({ cur with Etag := r.1 }, r.2)
      else if name = "id" then
        let r := storeString ctx j cur.ID
        ({ cur with ID := r.1 }, r.2)
      else
        let r := storeSnippet ctx j cur.Snippet
        ({ cur with Snippet := r.1 }, r.2))

/-- The store into a `GeneratedYoutubeResponse`, by its `json` tags. -/
def storeGenerated : Store GeneratedYoutubeResponse :=
  storeStruct "composition.GeneratedYoutubeResponse" "GeneratedYoutubeResponse"
    ["kind", "etag", "pageInfo", "items"]
    (fun name ctx j cur =>
      if name = "kind" then
        let r := storeString ctx j cur.Kind
        ({ cur with Kind := r.1 }, r.2)
      else if name = "etag" then
        let r := storeString ctx j cur.Etag
        ({ cur with Etag := r.1 }, r.2)
      else if name = "pageInfo" then
        let r := storePageInfo ctx j cur.PageInfo
        ({ cur with PageInfo := r.1 }, r.2)
      else
        let r := storeSlice ("[]" ++ itemType) {} storeItem ctx j cur.Items
        ({ cur with Items := r.1 }, r.2))

/-- The model of `json.Unmarshal(data, &v)`: a syntax error anywhere in the
input is returned with `v` untouched; else the value is stored into `v`. -/
def jsonUnmarshal {α : Type} (store : Store α) (data : String) (v : α) : α × Option GoError :=
  match scanJSON data with
  | .error err => (v, some err)
  | .ok j => store none j v

/-! ### The encoder -/

/-- One character inside a JSON string as `json.Marshal` writes it, with its
default escaping of `<`, `>` and `&`. -/
def encodeChar (c : Char) : List Char :=
  let n := c.toNat
  if c = '"' then ['\\', '"']
  else if c = '\\' then ['\\', '\\']
  else if c = '\n' then ['\\', 'n']
  else if c = '\r' then ['\\', 'r']
  else if c = '\t' then ['\\', 't']
  else if n < 32 ∨ c = '<' ∨ c = '>' ∨ c = '&' then
    ['\\', 'u', '0', '0', hexDigit (n / 16), hexDigit (n % 16)]
  else if n = 8232 then ['\\', 'u', '2', '0', '2', '8']
  else if n = 8233 then ['\\', 'u', '2', '0', '2', '9']
  else [c]

/-- A JSON string literal. -/
def encodeString (s : String) : String :=
  String.mk (['"'] ++ (s.data.map encodeChar).flatten ++ ['"'])

/-- A JSON object from the names and the values of its string members. -/
def encodeObject (members : List (String × String)) : String :=
  "\x7b" ++ ",".intercalate (members.map (fun m => "\"" ++ m.1 ++ "\":" ++ encodeString m.2))
    ++ "\x7d"

/-- The model of `json.Marshal` at `ArticleResponse`. -/
def jsonMarshalArticle (a : ArticleResponse) : String :=
  encodeObject [("excerpt", a.Excerpt), ("title", a.Title), ("url", a.URL),
    ("date_published", a.DatePublished)]

/-- The model of `json.Marshal` at `YoutubeResponse`. -/
def jsonMarshalYoutube (y : YoutubeResponse) : String :=
  encodeObject [("title", y.Title), ("url", y.URL), ("author_name", y.AuthorName),
    ("thumbnail", y.Thumbnail), ("date_published", y.DatePublished),
    ("description", y.Description)]

/-! ## A model of `net/url`

`Parse` splits off the fragment, rejects control characters, finds the
scheme, splits off the query and checks the percent-escapes of path and
fragment; `Query` splits the raw query into pairs and drops the malformed
ones. The checks `Parse` makes on the authority (host, port, user) are not
modelled: an address is accepted here whatever its authority is. -/

/-- The text `strconv.Quote` gives, for a string whose characters outside
ASCII are printable. -/
def goQuote (s : String) : String :=
  let esc (c : Char) : List Char :=
    let n := c.toNat
    if c = '"' then ['\\', '"']
    else if c = '\\' then ['\\', '\\']
    else if n = 7 then ['\\', 'a']
    else if n = 8 then ['\\', 'b']
    else if n = 12 then ['\\', 'f']
    else if n = 10 then ['\\', 'n']
    else if n = 13 then ['\\', 'r']
    else if n = 9 then ['\\', 't']
    else if n = 11 then ['\\', 'v']
    else if n < 32 ∨ n = 127 then ['\\', 'x', hexDigit (n / 16), hexDigit (n % 16)]
    else [c]
  String.mk (['"'] ++ (s.data.map esc).flatten ++ ['"'])

/-- The text of a `*url.Error` of `Parse`. -/
def parseError (url : List Char) (err : GoError) : GoError :=
  "parse " ++ goQuote (String.mk url) ++ ": " ++ err

/-- `strings.Cut` at a character: the part before its first occurrence and,
when it occurs, the part after. -/
def cutAt (sep : Char) : List Char → List Char × Option (List Char)
  | [] => ([], none)
  | c :: cs =>
    if c = sep then ([], some cs)
    else
      let r := cutAt sep cs
      (c :: r.1, r.2)

def isLetter (c : Char) : Bool := ('a' ≤ c ∧ c ≤ 'z') ∨ ('A' ≤ c ∧ c ≤ 'Z')

/-- The loop of `getScheme` from index `i` on: the scheme (in reverse so far)
and the rest, or the error of a leading colon. -/
def getSchemeFrom (raw : List Char) (first : Bool) (acc : List Char) :
    List Char → Except GoError (List Char × List Char)
  | [] => .ok ([], raw)
  | c :: cs =>
    if isLetter c then getSchemeFrom raw false (c :: acc) cs
    else if isDigit c ∨ c = '+' ∨ c = '-' ∨ c = '.' then
      if first then .ok ([], raw) else getSchemeFrom raw false (c :: acc) cs
    else if c = ':' then
      if first then .error "missing protocol scheme" else .ok (acc.reverse, cs)
    else .ok ([], raw)

/-- `getScheme`. -/
def getScheme (raw : List Char) : Except GoError (List Char × List Char) :=
  getSchemeFrom raw true [] raw

/-- The first malformed percent-escape of a string, as `unescape` reports it:
the escape, cut to three characters. -/
def badEscape : List Char → Option (List Char)
  | [] => none
  | c :: cs =>
    if c = '%' then
      match cs with
      | a :: b :: rest =>
        if (hexVal a).isSome ∧ (hexVal b).isSome then badEscape rest
        else some [c, a, b]
      | rest => some (c :: rest)
    else badEscape cs

def escapeError (e : List Char) : GoError :=
  "invalid URL escape " ++ goQuote (String.mk e)

/-- The characters of a UTF-8 byte sequence; a byte that starts no valid
sequence becomes U+FFFD. -/
def utf8Decode : List Nat → List Char
  | [] => []
  | [a] => [if a < 128 then Char.ofNat a else replacementChar]
  | [a, b] =>
    if a < 128 then Char.ofNat a :: utf8Decode [b]
    else if 194 ≤ a ∧ a < 224 ∧ 128 ≤ b ∧ b < 192 then [Char.ofNat ((a - 192) * 64 + (b - 128))]
    else replacementChar :: utf8Decode [b]
  | [a, b, c] =>
    if a < 128 then Char.ofNat a :: utf8Decode [b, c]
    else if 194 ≤ a ∧ a < 224 ∧ 128 ≤ b ∧ b < 192 then
      Char.ofNat ((a - 192) * 64 + (b - 128)) :: utf8Decode [c]
    else
      let n := ((a - 224) * 64 + (b - 128)) * 64 + (c - 128)
      if 224 ≤ a ∧ a < 240 ∧ 128 ≤ b ∧ b < 192 ∧ 128 ≤ c ∧ c < 192 ∧ 2048 ≤ n
          ∧ ¬ (55296 ≤ n ∧ n < 57344) then [Char.ofNat n]
      else replacementChar :: utf8Decode [b, c]
  | a :: b :: c :: d :: rest =>
    if a < 128 then Char.ofNat a :: utf8Decode (b :: c :: d :: rest)
    else if 194 ≤ a ∧ a < 224 ∧ 128 ≤ b ∧ b < 192 then
      Char.ofNat ((a - 192) * 64 + (b - 128)) :: utf8Decode (c :: d :: rest)
    else
      let n := ((a - 224) * 64 + (b - 128)) * 64 + (c - 128)
      if 224 ≤ a ∧ a < 240 ∧ 128 ≤ b ∧ b < 192 ∧ 128 ≤ c ∧ c < 192 ∧ 2048 ≤ n
          ∧ ¬ (55296 ≤ n ∧ n < 57344) then Char.ofNat n :: utf8Decode (d :: rest)
      else
        let m := (((a - 240) * 64 + (b - 128)) * 64 + (c - 128)) * 64 + (d - 128)
        if 240 ≤ a ∧ a < 245 ∧ 128 ≤ b ∧ b < 192 ∧ 128 ≤ c ∧ c < 192 ∧ 128 ≤ d ∧ d < 192
            ∧ 65536 ≤ m ∧ m < 1114112 then Char.ofNat m :: utf8Decode rest
        else replacementChar :: utf8Decode (b :: c :: d :: rest)

/-- The bytes of a query component with `+` and the percent-escapes
resolved; the escapes are well-formed. -/
def unescapeBytes : List Char → List Nat
  | [] => []
  | [c] => if c = '+' then [32] else utf8Bytes [c]
  | [c, a] => (if c = '+' then [32] else utf8Bytes [c]) ++ unescapeBytes [a]
  | c :: a :: b :: rest =>
    if c = '+' then 32 :: unescapeBytes (a :: b :: rest)
    else if c = '%' then
      match hexVal a, hexVal b with
      | some x, some y => (x * 16 + y) :: unescapeBytes rest
      | _, _ => utf8Bytes [c] ++ unescapeBytes (a :: b :: rest)
    else utf8Bytes [c] ++ unescapeBytes (a :: b :: rest)

/-- `QueryUnescape`. -/
def QueryUnescape (s : List Char) : Except GoError String :=
  match badEscape s with
  | some e => .error (escapeError e)
  | none => .ok (String.mk (utf8Decode (unescapeBytes s)))

/-- `append(m[key], value)` on a `Values`. -/
def Values.Add (m : Values) (key value : String) : Values :=
  match m.lookup key with
  | some vs => (key, vs ++ [value]) :: m.filter (fun kv => kv.1 != key)
  | none => m ++ [(key, [value])]

/-- The pairs of a raw query split at `&`. -/
def splitPairs (query : List Char) : List (List Char) :=
  (query.splitOn '&')

/-- `ParseQuery`, its error dropped as `Query` does: a pair with a semicolon
or a malformed escape is skipped. -/
def parseQuery (query : List Char) : Values :=
  (splitPairs query).foldl
    (fun (m : Values) (pair : List Char) =>
      if pair.contains ';' ∨ pair = [] then m
      else
        let kv := cutAt '=' pair
        match QueryUnescape kv.1, QueryUnescape (kv.2.getD []) with
        | .ok key, .ok value => m.Add key value
        | _, _ => m)
    []

/-- The model of `url.Parse`, up to the `Query()` of the result. -/
def urlParse (rawURL : String) : Except GoError URL :=
  let c0 := cutAt '#' rawURL.data
  let u := c0.1
  let frag := c0.2.getD []
  if u.any (fun c => c.toNat < 32 ∨ c.toNat = 127) then
    .error (parseError u "net/url: invalid control character in URL")
  else if u = ['*'] then
    match badEscape frag with
    | some e => .error (parseError rawURL.data (escapeError e))
    | none => .ok { Query := [] }
  else
    match getScheme u with
    | .error err => .error (parseError u err)
    | .ok (scheme, rest0) =>
      let c1 := cutAt '?' rest0
      let rest := c1.1
      let rawQuery := c1.2.getD []
      let done : Except GoError URL :=
        match badEscape frag with
        | some e => .error (parseError rawURL.data (escapeError e))
        | none => .ok { Query := parseQuery rawQuery }
      if rest.head? ≠ some '/' ∧ scheme ≠ [] then done
      else if rest.head? ≠ some '/' ∧ (cutAt '/' rest).1.contains ':' then
        .error (parseError u "first path segment in URL cannot contain colon")
      else
        let path : List Char :=
          if (scheme ≠ [] ∨ ¬ ['/', '/', '/'].isPrefixOf rest) ∧ ['/', '/'].isPrefixOf rest then
            match (cutAt '/' (rest.drop 2)).2 with
            | some p => '/' :: p
            | none => []
          else rest
        match badEscape path with
        | some e => .error (parseError u (escapeError e))
        | none => done

/-- The model of `url.QueryEscape`. -/
def urlQueryEscape (s : String) : String :=
  let esc (c : Char) : List Char :=
    if isLetter c ∨ isDigit c ∨ c = '-' ∨ c = '_' ∨ c = '.' ∨ c = '~' then [c]
    else if c = ' ' then ['+']
    else
      ((utf8Bytes [c]).map (fun b =>
        ['%', (hexDigit (b / 16)).toUpper, (hexDigit (b % 16)).toUpper])).flatten
  String.mk (s.data.map esc).flatten

/-- The method is a token, as `http.NewRequest` asks. -/
def validMethod (method : String) : Bool :=
  method ≠ "" ∧ method.data.all (fun c =>
    isLetter c ∨ isDigit c ∨ [33, 35, 36, 37, 38, 39, 42, 43, 45, 46, 94, 95, 96, 124, 126].contains c.toNat)

/-- The model of `http.NewRequest(method, url, nil)`: the method and the
address are checked, the request has no header yet. -/
def httpNewRequest (method url : String) : Except GoError OutRequest :=
  if ¬ validMethod method then .error ("net/http: invalid method " ++ goQuote method)
  else
    match urlParse url with
    | .error err => .error err
    | .ok _ => .ok { Method := method, URL := url }

/-- The environment with the library models above, for the given tokens and
the client the platform hands out. -/
def goEnv (mercuryToken youtubeToken : String) (client : Request → Client) : Env where
  MercuryToken := mercuryToken
  YoutubeToken := youtubeToken
  Parse := urlParse
  QueryEscape := urlQueryEscape
  NewRequest := httpNewRequest
  UnmarshalArticle := jsonUnmarshal storeArticle
  UnmarshalYoutube := jsonUnmarshal storeGenerated
  MarshalArticle := jsonMarshalArticle
  MarshalYoutube := jsonMarshalYoutube
  urlfetchClient := client

/-- A stub collaborator: every call is answered with the given status and
body. -/
def stubClient (status : Nat) (body : String) : Client where
  Do := fun _ => .ok { StatusCode := status, Body := { data := body } }
  Get := fun _ => .ok { StatusCode := status, Body := { data := body } }

/-- A collaborator that cannot be reached: every call fails with the given
transport error. -/
def failingClient (err : GoError) : Client where
  Do := fun _ => .error err
  Get := fun _ => .error err

/-- A collaborator whose response body breaks off with a read error. -/
def brokenBodyClient (status : Nat) (body : String) (err : GoError) : Client where
  Do := fun _ => .ok { StatusCode := status, Body := { data := body, err := some err } }
  Get := fun _ => .ok { StatusCode := status, Body := { data := body, err := some err } }

/-- An inbound request with the given query values. -/
def requestWith (query : Values) : Request := { URL := { Query := query } }

/-- The parameter is absent from the query values or its first value is
empty. -/
def Values.absentOrEmpty (v : Values) (key : String) : Prop :=
  ∀ x rest, v.lookup key = some (x :: rest) → x = ""

/-- The response `http.Error` leaves in a fresh writer. -/
def errorResponse (message : String) (code : Nat) : ResponseWriter :=
  { Header := [("X-Content-Type-Options", "nosniff"),
      ("Content-Type", "text/plain; charset=utf-8")]
    Status := some code
    Body := message ++ "\n" }

/-- The response one `Write` of a text leaves in a fresh writer: status 200
and, as the handler set no header, the content type sniffed from the text. -/
def okResponse (text : String) : ResponseWriter :=
  { Header := [("Content-Type", DetectContentType text)], Status := some StatusOK, Body := text }

/-- The upstream body of the video scenario: one item with the five snippet
values, next to values that must not matter (medium and high thumbnails, a
second item). -/
def videoBody : String :=
  "\x7b\"items\":[\x7b\"snippet\":\x7b\"title\":\"T\",\"channelTitle\":\"C\",\"publishedAt\":\"P\"," ++
  "\"description\":\"D\",\"thumbnails\":\x7b\"default\":\x7b\"url\":\"X\"\x7d," ++
  "\"medium\":\x7b\"url\":\"M\"\x7d,\"high\":\x7b\"url\":\"H\"\x7d\x7d\x7d\x7d," ++
  "\x7b\"snippet\":\x7b\"title\":\"other\"\x7d\x7d]\x7d"

/-- The upstream body of the article scenario. -/
def articleBody : String :=
  "\x7b\"excerpt\":\"e\",\"title\":\"t\",\"url\":\"u\",\"date_published\":\"d\"\x7d"

/-- The article scenario with a member the target type does not have. -/
def articleBodyExtra : String :=
  "\x7b\"excerpt\":\"e\",\"author\":\"a\",\"title\":\"t\",\"url\":\"u\",\"word_count\":7," ++
  "\"date_published\":\"d\"\x7d"

/-- An upstream body whose `excerpt` is a number. -/
def articleBodyMistyped : String := "\x7b\"title\":\"t\",\"excerpt\":5\x7d"

/-- The environment of the scenarios: the library models, fixed tokens, the
platform client a stub answering with the given status and body. -/
def stubEnv (status : Nat) (body : String) : Env :=
  goEnv "mercury-token" "youtube-token" (fun _ => stubClient status body)

/-- The environment of the scenarios when the upstream cannot be reached. -/
def failingEnv (err : GoError) : Env :=
  goEnv "mercury-token" "youtube-token" (fun _ => failingClient err)

set_option maxRecDepth 1000000

/-! ## Properties -/

theorem Values.Get_eq_empty_iff (v : Values) (key : String) :
    v.Get key = "" ↔ v.absentOrEmpty key := by
  unfold Values.Get Values.absentOrEmpty
  cases h : List.lookup key v with
  | none => simp
  | some vs =>
    cases vs with
    | nil => simp
    | cons x rest => simp

theorem append_newline_ne_empty (s : String) : s ++ "\n" ≠ "" := by
  intro h
  have hlen := congrArg String.length h
  simp [String.length_append] at hlen
  exact absurd hlen.2 (by decide)

theorem Write_keeps_content_type (w : ResponseWriter) (data ct : String)
    (h : w.HeaderGet "Content-Type" = some ct) :
    w.Write data = { w.WriteHeader StatusOK with Body := w.Body ++ data } := by
  have h1 : (w.WriteHeader StatusOK).HeaderGet "Content-Type" = some ct := by
    unfold ResponseWriter.WriteHeader
    cases w.Status <;> simpa [ResponseWriter.HeaderGet] using h
  have h2 : (w.WriteHeader StatusOK).Body = w.Body := by
    unfold ResponseWriter.WriteHeader
    cases w.Status <;> rfl
  simp [ResponseWriter.Write, h1, h2]

theorem httpError_fresh (message : String) (code : Nat) :
    httpError ResponseWriter.fresh message code = errorResponse message code := by
  unfold httpError
  rw [Write_keeps_content_type _ _ "text/plain; charset=utf-8"
    (by simp [ResponseWriter.HeaderGet, ResponseWriter.HeaderSet, ResponseWriter.WriteHeader,
      ResponseWriter.fresh, List.lookup])]
  simp [ResponseWriter.HeaderSet, ResponseWriter.WriteHeader, ResponseWriter.fresh,
    errorResponse]

theorem Encode_fresh {α : Type} (marshal : α → String) (x : α) :
    Encode marshal ResponseWriter.fresh (some x) = okResponse (marshal x ++ "\n") := by
  simp [Encode, ResponseWriter.WriteHeader, ResponseWriter.Write, ResponseWriter.fresh,
    ResponseWriter.HeaderGet, ResponseWriter.HeaderSet, okResponse, append_newline_ne_empty]

/-- Whatever the data, the sniffed content type is that of an entry of the
table or the fallback; `application/json` is neither. -/
theorem DetectContentType_ne_json (data : String) :
    DetectContentType data ≠ "application/json" := by
  have hall : ∀ s ∈ sniffSignatures, s.contentType ≠ "application/json" := by decide
  unfold DetectContentType
  simp only []
  split
  · next sig h => exact hall sig (List.mem_of_find?_eq_some h)
  · decide

/-- C1: a request to `HandleArticle` or `HandleYoutube` whose `url` parameter
is absent or empty is answered with status 400 and the plain-text message
"Missing URL Parameter" (printed as one line), and nothing else happens: no
fetcher is invoked and no call is made on any client. -/
theorem missing_url_parameter_is_rejected (env : Env) (r : Request)
    (h : r.URL.Query.absentOrEmpty "url") :
    HandleArticle env ResponseWriter.fresh r
        = (Handled.done (errorResponse "Missing URL Parameter" 400), [])
      ∧ HandleYoutube env ResponseWriter.fresh r
        = (Handled.done (errorResponse "Missing URL Parameter" 400), [])
      ∧ (errorResponse "Missing URL Parameter" 400).Status = some 400
      ∧ (errorResponse "Missing URL Parameter" 400).Body = "Missing URL Parameter\n"
      ∧ (errorResponse "Missing URL Parameter" 400).HeaderGet "Content-Type"
        = some "text/plain; charset=utf-8" := by
  have hget : r.URL.Query.Get "url" = "" := (Values.Get_eq_empty_iff _ _).mpr h
  refine ⟨?_, ?_, rfl, by decide, by decide⟩
  · simp [HandleArticle, hget, httpError_fresh, StatusBadRequest]
  · simp [HandleYoutube, hget, httpError_fresh, StatusBadRequest]

/-- C1 at two requests, one without any parameter and one with `url=`, in an
environment whose upstream would answer. -/
theorem missing_url_parameter_is_rejected_witness :
    (HandleArticle (stubEnv 200 articleBody) ResponseWriter.fresh (requestWith [])
        = (Handled.done (errorResponse "Missing URL Parameter" 400), [])
      ∧ HandleYoutube (stubEnv 200 articleBody) ResponseWriter.fresh (requestWith [])
        = (Handled.done (errorResponse "Missing URL Parameter" 400), []))
    ∧ (HandleArticle (stubEnv 200 videoBody) ResponseWriter.fresh
          (requestWith [("url", [""]), ("v", ["abc"])])
        = (Handled.done (errorResponse "Missing URL Parameter" 400), [])
      ∧ HandleYoutube (stubEnv 200 videoBody) ResponseWriter.fresh
          (requestWith [("url", [""]), ("v", ["abc"])])
        = (Handled.done (errorResponse "Missing URL Parameter" 400), [])) :=
  ⟨⟨(missing_url_parameter_is_rejected (stubEnv 200 articleBody) (requestWith [])
        (by intro x rest hx; simp [requestWith] at hx)).1,
      (missing_url_parameter_is_rejected (stubEnv 200 articleBody) (requestWith [])
        (by intro x rest hx; simp [requestWith] at hx)).2.1⟩,
    ⟨(missing_url_parameter_is_rejected (stubEnv 200 videoBody)
        (requestWith [("url", [""]), ("v", ["abc"])])
        (by intro x rest hx; simp [requestWith, List.lookup] at hx; exact hx.1.symm)).1,
      (missing_url_parameter_is_rejected (stubEnv 200 videoBody)
        (requestWith [("url", [""]), ("v", ["abc"])])
        (by intro x rest hx; simp [requestWith, List.lookup] at hx; exact hx.1.symm)).2.1⟩⟩

/-- C2: when the input parses with a non-empty `v` and the upstream body
decodes to a response with at least one item, `ScrapeYouTube` returns no error
and the summary made of item zero's snippet title, channel title, default
thumbnail address, publication time and description, with the input echoed
verbatim as `url`. Nothing else of the decoded response enters the result:
the later items `rest` and all other fields of `item0` are arbitrary here. -/
theorem ScrapeYouTube_projects_item_zero (env : Env) (rawUrl : String) (client : Client)
    (u : URL) (resp : HttpResponse) (g : GeneratedYoutubeResponse) (item0 : Item)
    (rest : List Item)
    (hparse : env.Parse rawUrl = .ok u)
    (hv : u.Query.Get "v" ≠ "")
    (hget : client.Get (youtubeTarget env (u.Query.Get "v")) = .ok resp)
    (hread : resp.Body.err = none)
    (hdec : env.UnmarshalYoutube resp.Body.data {} = (g, none))
    (hitems : g.Items = item0 :: rest) :
    (ScrapeYouTube env rawUrl client).1
      = Outcome.returned
          (some { Title := item0.Snippet.Title
                  URL := rawUrl
                  AuthorName := item0.Snippet.ChannelTitle
                  Thumbnail := item0.Snippet.Thumbnails.Default.URL
                  DatePublished := item0.Snippet.PublishedAt
                  Description := item0.Snippet.Description })
          none := by
  simp [ScrapeYouTube, hparse, hv, hget, ReadAll, hread, hdec, hitems]

/-- C2 at the scenario of the specification: input `https://x/?v=abc`, an
upstream body whose first item has title T, channel title C, publication time
P, description D and default thumbnail X. -/
theorem ScrapeYouTube_projects_item_zero_witness :
    (ScrapeYouTube (stubEnv 200 videoBody) "https://x/?v=abc" (stubClient 200 videoBody)).1
      = Outcome.returned
          (some { Title := "T", URL := "https://x/?v=abc", AuthorName := "C", Thumbnail := "X",
                  DatePublished := "P", Description := "D" })
          none :=
  ScrapeYouTube_projects_item_zero (stubEnv 200 videoBody) "https://x/?v=abc"
    (stubClient 200 videoBody) { Query := [("v", ["abc"])] }
    { StatusCode := 200, Body := { data := videoBody } }
    (jsonUnmarshal storeGenerated videoBody {}).1
    { Snippet := { Title := "T", ChannelTitle := "C", PublishedAt := "P", Description := "D",
                   Thumbnails := { Default := { URL := "X" }, Medium := { URL := "M" },
                                   High := { URL := "H" } } } }
    [{ Snippet := { Title := "other" } }]
    (by decide) (by decide) (by rfl) (by rfl) (by decide) (by decide)

/-- C3: when the input parses but its `v` parameter is absent or empty,
`ScrapeYouTube` returns no summary and the error "Missing video ID", and no
call on the injected client precedes it: the list of events is empty, whatever
the client is. -/
theorem ScrapeYouTube_missing_video_id (env : Env) (rawUrl : String) (client : Client)
    (u : URL)
    (hparse : env.Parse rawUrl = .ok u)
    (hv : u.Query.absentOrEmpty "v") :
    ScrapeYouTube env rawUrl client
      = (Outcome.returned none (some "Missing video ID"), []) := by
  have hget : u.Query.Get "v" = "" := (Values.Get_eq_empty_iff _ _).mpr hv
  simp [ScrapeYouTube, hparse, hget]

/-- C3 at `https://x/` (no query) and at `https://x/?v=` (empty `v`). -/
theorem ScrapeYouTube_missing_video_id_witness :
    ScrapeYouTube (stubEnv 200 videoBody) "https://x/" (stubClient 200 videoBody)
        = (Outcome.returned none (some "Missing video ID"), [])
      ∧ ScrapeYouTube (stubEnv 200 videoBody) "https://x/?v=&t=1" (stubClient 200 videoBody)
        = (Outcome.returned none (some "Missing video ID"), []) :=
  ⟨ScrapeYouTube_missing_video_id (stubEnv 200 videoBody) "https://x/"
      (stubClient 200 videoBody) { Query := [] } (by decide)
      (by intro x rest hx; simp at hx),
    ScrapeYouTube_missing_video_id (stubEnv 200 videoBody) "https://x/?v=&t=1"
      (stubClient 200 videoBody) { Query := [("v", [""]), ("t", ["1"])] } (by decide)
      (by intro x rest hx; simp [List.lookup] at hx; exact hx.1.symm)⟩

/-- C4: when the input has a non-empty `v` and the upstream body decodes
without error to a response whose item list is empty (the value it also has
when the body has no `items` member), `ScrapeYouTube` returns a nil summary
and the error "Could Not Find Video". Conversely, whenever `ScrapeYouTube`
returns a summary, the body it read decoded without error to a response with
at least one item. -/
theorem ScrapeYouTube_no_items (env : Env) (rawUrl : String) (client : Client)
    (u : URL) (resp : HttpResponse) (g : GeneratedYoutubeResponse)
    (hparse : env.Parse rawUrl = .ok u)
    (hv : u.Query.Get "v" ≠ "")
    (hget : client.Get (youtubeTarget env (u.Query.Get "v")) = .ok resp)
    (hread : resp.Body.err = none)
    (hdec : env.UnmarshalYoutube resp.Body.data {} = (g, none))
    (hitems : g.Items = []) :
    (ScrapeYouTube env rawUrl client).1
        = Outcome.returned none (some "Could Not Find Video")
      ∧ ∀ (rawUrl1 : String) (client1 : Client) (s : YoutubeResponse) (e : Option GoError),
          (ScrapeYouTube env rawUrl1 client1).1 = Outcome.returned (some s) e →
          ∃ (u1 : URL) (resp1 : HttpResponse) (g1 : GeneratedYoutubeResponse),
            env.Parse rawUrl1 = .ok u1
              ∧ client1.Get (youtubeTarget env (u1.Query.Get "v")) = .ok resp1
              ∧ resp1.Body.err = none
              ∧ env.UnmarshalYoutube resp1.Body.data {} = (g1, none)
              ∧ 1 ≤ g1.Items.length := by
  constructor
  · simp [ScrapeYouTube, hparse, hv, hget, ReadAll, hread, hdec, hitems]
  · intro rawUrl1 client1 s e hs
    unfold ScrapeYouTube at hs
    cases hp : env.Parse rawUrl1 with
    | error err => simp [hp] at hs
    | ok u1 =>
      by_cases hv1 : u1.Query.Get "v" = ""
      · simp [hp, hv1] at hs
      · cases hg : client1.Get (youtubeTarget env (u1.Query.Get "v")) with
        | error err => simp [hp, hv1, hg] at hs
        | ok resp1 =>
          cases hr : resp1.Body.err with
          | some err => simp [hp, hv1, hg, ReadAll, hr] at hs
          | none =>
            cases hd : env.UnmarshalYoutube resp1.Body.data {} with
            | mk g1 e1 =>
              cases e1 with
              | some err => simp [hp, hv1, hg, ReadAll, hr, hd] at hs
              | none =>
                cases hi : g1.Items with
                | nil => simp [hp, hv1, hg, ReadAll, hr, hd, hi] at hs
                | cons item0 rest =>
                  exact ⟨u1, resp1, g1, rfl, hg, hr, hd, by simp [hi]⟩

/-- C4 at an upstream body with an empty item list. -/
theorem ScrapeYouTube_no_items_witness :
    (ScrapeYouTube (stubEnv 200 "\x7b\"items\":[]\x7d") "https://x/?v=abc"
        (stubClient 200 "\x7b\"items\":[]\x7d")).1
      = Outcome.returned none (some "Could Not Find Video") :=
  (ScrapeYouTube_no_items (stubEnv 200 "\x7b\"items\":[]\x7d") "https://x/?v=abc"
    (stubClient 200 "\x7b\"items\":[]\x7d") { Query := [("v", ["abc"])] }
    { StatusCode := 200, Body := { data := "\x7b\"items\":[]\x7d" } } {}
    (by decide) (by decide) (by rfl) (by rfl) (by decide) (by rfl)).1

/-- C5, as the code has it: when the input fails to parse as a URL,
`ScrapeYouTube` returns no summary and the parser's own error, unchanged, and
makes no call on the client. -/
theorem ScrapeYouTube_parse_error_verbatim (env : Env) (rawUrl : String) (client : Client)
    (err : GoError)
    (hparse : env.Parse rawUrl = .error err) :
    ScrapeYouTube env rawUrl client = (Outcome.returned none (some err), []) := by
  simp [ScrapeYouTube, hparse]

/-- C5 as amended, at the input `:`. -/
theorem ScrapeYouTube_parse_error_verbatim_witness :
    ScrapeYouTube (stubEnv 200 videoBody) ":" (stubClient 200 videoBody)
      = (Outcome.returned none (some "parse \":\": missing protocol scheme"), []) :=
  ScrapeYouTube_parse_error_verbatim (stubEnv 200 videoBody) ":" (stubClient 200 videoBody)
    "parse \":\": missing protocol scheme" (by decide)

/-- C5 as stated fails: the input `:` does not parse as a URL (a colon with
no scheme before it), and the error `ScrapeYouTube` returns for it is the
parser's, not "Missing video ID". -/
theorem ScrapeYouTube_parse_error_counterexample :
    urlParse ":" = .error "parse \":\": missing protocol scheme"
      ∧ (ScrapeYouTube (stubEnv 200 videoBody) ":" (stubClient 200 videoBody)).1
        = Outcome.returned none (some "parse \":\": missing protocol scheme")
      ∧ (ScrapeYouTube (stubEnv 200 videoBody) ":" (stubClient 200 videoBody)).1
        ≠ Outcome.returned none (some "Missing video ID") := by
  decide

/-- C6, as the code has it: for a request with a non-empty `url` whose fetcher
returns a summary and no error, the handler writes the JSON encoding of that
summary as one line, which gives status 200. It sets no header itself, so the
`Content-Type` of the response is the one the writer sniffs from the body,
and that is never `application/json`. -/
theorem success_writes_json_with_status_200 (env : Env) (r : Request)
    (hurl : r.URL.Query.Get "url" ≠ "") :
    (∀ a : ArticleResponse,
        (ScrapeArticle env (r.URL.Query.Get "url") (env.urlfetchClient r)).1 = (some a, none) →
        (HandleArticle env ResponseWriter.fresh r).1
          = Handled.done (okResponse (env.MarshalArticle a ++ "\n")))
      ∧ (∀ y : YoutubeResponse,
        (ScrapeYouTube env (r.URL.Query.Get "url") (env.urlfetchClient r)).1
          = Outcome.returned (some y) none →
        (HandleYoutube env ResponseWriter.fresh r).1
          = Handled.done (okResponse (env.MarshalYoutube y ++ "\n")))
      ∧ ∀ text : String,
          (okResponse text).Status = some 200 ∧ (okResponse text).Body = text
            ∧ (okResponse text).Header = [("Content-Type", DetectContentType text)]
            ∧ (okResponse text).HeaderGet "Content-Type" = some (DetectContentType text)
            ∧ (okResponse text).HeaderGet "Content-Type" ≠ some "application/json" := by
  have hct : ∀ text : String,
      (okResponse text).HeaderGet "Content-Type" = some (DetectContentType text) := by
    intro text
    simp [okResponse, ResponseWriter.HeaderGet, List.lookup]
  refine ⟨?_, ?_, fun text => ⟨rfl, rfl, rfl, hct text, ?_⟩⟩
  · intro a ha
    unfold HandleArticle
    cases hs : ScrapeArticle env (r.URL.Query.Get "url") (env.urlfetchClient r) with
    | mk res tr =>
      rw [hs] at ha
      simp only at ha
      subst ha
      simp [hurl, hs, Encode_fresh]
  · intro y hy
    unfold HandleYoutube
    cases hs : ScrapeYouTube env (r.URL.Query.Get "url") (env.urlfetchClient r) with
    | mk res tr =>
      rw [hs] at hy
      simp only at hy
      subst hy
      simp [hurl, hs, Encode_fresh]
  · rw [hct text]
    intro h
    exact DetectContentType_ne_json text (Option.some.inj h)

/-- C6 as amended, at `/article?url=u` and `/youtube?url=https://x/?v=abc`
with stub collaborators: status 200, the JSON line, and the sniffed content
type, which for these bodies is plain text. -/
theorem success_writes_json_with_status_200_witness :
    (HandleArticle (stubEnv 200 articleBody) ResponseWriter.fresh
        (requestWith [("url", ["u"])])).1
      = Handled.done
          { Header := [("Content-Type", "text/plain; charset=utf-8")]
            Status := some 200
            Body := articleBody ++ "\n" }
    ∧ (HandleYoutube (stubEnv 200 videoBody) ResponseWriter.fresh
        (requestWith [("url", ["https://x/?v=abc"])])).1
      = Handled.done
          { Header := [("Content-Type", "text/plain; charset=utf-8")]
            Status := some 200
            Body :=
              "\x7b\"title\":\"T\",\"url\":\"https://x/?v=abc\",\"author_name\":\"C\"," ++
              "\"thumbnail\":\"X\",\"date_published\":\"P\",\"description\":\"D\"\x7d" ++ "\n" } :=
  ⟨((success_writes_json_with_status_200 (stubEnv 200 articleBody)
      (requestWith [("url", ["u"])]) (by decide)).1
      { Excerpt := "e", Title := "t", URL := "u", DatePublished := "d" } (by decide)).trans
      (by decide),
    ((success_writes_json_with_status_200 (stubEnv 200 videoBody)
      (requestWith [("url", ["https://x/?v=abc"])]) (by decide)).2.1
      { Title := "T", URL := "https://x/?v=abc", AuthorName := "C", Thumbnail := "X",
        DatePublished := "P", Description := "D" } (by decide)).trans (by decide)⟩

/-- C6 as stated fails: `/article?url=u` with a stub collaborator answering
the article scenario succeeds with status 200 and the JSON body, and the
`Content-Type` of the response is not `application/json`: the handler sets
none, and the writer's sniffing of the body gives
`text/plain; charset=utf-8`. -/
theorem success_content_type_counterexample :
    (ScrapeArticle (stubEnv 200 articleBody) "u" (stubClient 200 articleBody)).1
        = (some { Excerpt := "e", Title := "t", URL := "u", DatePublished := "d" }, none)
      ∧ (HandleArticle (stubEnv 200 articleBody) ResponseWriter.fresh
          (requestWith [("url", ["u"])])).1
        = Handled.done
            { Header := [("Content-Type", "text/plain; charset=utf-8")]
              Status := some 200
              Body := articleBody ++ "\n" }
      ∧ ResponseWriter.HeaderGet
          { Header := [("Content-Type", "text/plain; charset=utf-8")]
            Status := some 200
            Body := articleBody ++ "\n" } "Content-Type"
        = some "text/plain; charset=utf-8"
      ∧ ResponseWriter.HeaderGet
          { Header := [("Content-Type", "text/plain; charset=utf-8")]
            Status := some 200
            Body := articleBody ++ "\n" } "Content-Type"
        ≠ some "application/json" := by
  decide

/-- C7: for a request with a non-empty `url` whose fetcher returns an error,
the handler answers with status 500 and the error's text (printed as one
line) and writes nothing else: whatever value the fetcher returned next to the
error, no JSON of it reaches the response. -/
theorem fetcher_error_is_status_500 (env : Env) (r : Request)
    (hurl : r.URL.Query.Get "url" ≠ "") :
    (∀ (v : Option ArticleResponse) (err : GoError),
        (ScrapeArticle env (r.URL.Query.Get "url") (env.urlfetchClient r)).1 = (v, some err) →
        (HandleArticle env ResponseWriter.fresh r).1 = Handled.done (errorResponse err 500))
      ∧ (∀ (v : Option YoutubeResponse) (err : GoError),
        (ScrapeYouTube env (r.URL.Query.Get "url") (env.urlfetchClient r)).1
          = Outcome.returned v (some err) →
        (HandleYoutube env ResponseWriter.fresh r).1 = Handled.done (errorResponse err 500))
      ∧ ∀ err : GoError,
          (errorResponse err 500).Status = some 500
            ∧ (errorResponse err 500).Body = err ++ "\n"
            ∧ (errorResponse err 500).HeaderGet "Content-Type"
              = some "text/plain; charset=utf-8" := by
  refine ⟨?_, ?_, fun err => ⟨rfl, rfl, by simp [errorResponse, ResponseWriter.HeaderGet, List.lookup]⟩⟩
  · intro v err hv
    unfold HandleArticle
    cases hs : ScrapeArticle env (r.URL.Query.Get "url") (env.urlfetchClient r) with
    | mk res tr =>
      rw [hs] at hv
      simp only at hv
      subst hv
      simp [hurl, hs, httpError_fresh, StatusInternalServerError]
  · intro v err hv
    unfold HandleYoutube
    cases hs : ScrapeYouTube env (r.URL.Query.Get "url") (env.urlfetchClient r) with
    | mk res tr =>
      rw [hs] at hv
      simp only at hv
      subst hv
      simp [hurl, hs, httpError_fresh, StatusInternalServerError]

/-- C7 at `/article?url=u` with an upstream body that does not decode (the
fetcher returns a record next to the error) and at
`/youtube?url=https://x/?v=abc` with an upstream body without items. -/
theorem fetcher_error_is_status_500_witness :
    (HandleArticle (stubEnv 200 articleBodyMistyped) ResponseWriter.fresh
        (requestWith [("url", ["u"])])).1
      = Handled.done (errorResponse
          "json: cannot unmarshal number into Go struct field ArticleResponse.excerpt of type string"
          500)
    ∧ (HandleYoutube (stubEnv 200 "\x7b\x7d") ResponseWriter.fresh
        (requestWith [("url", ["https://x/?v=abc"])])).1
      = Handled.done (errorResponse "Could Not Find Video" 500) :=
  ⟨(fetcher_error_is_status_500 (stubEnv 200 articleBodyMistyped)
      (requestWith [("url", ["u"])]) (by decide)).1
      (some { Title := "t" })
      "json: cannot unmarshal number into Go struct field ArticleResponse.excerpt of type string"
      (by decide),
    (fetcher_error_is_status_500 (stubEnv 200 "\x7b\x7d")
      (requestWith [("url", ["https://x/?v=abc"])]) (by decide)).2.1
      none "Could Not Find Video" (by decide)⟩

/-- C8: when the request is built and the client delivers a response whose
body is read without error, the result of `ScrapeArticle` is the JSON decode
of that body into a zero `ArticleResponse`, record and error both. The status
code of the response, the input address and the client do not enter it: any
other call that reads the same body returns the same result. -/
theorem ScrapeArticle_is_decode_of_body (env : Env) (url : String) (client : Client)
    (req0 : OutRequest) (resp : HttpResponse)
    (hreq : env.NewRequest "GET" (MercuryURL ++ url) = .ok req0)
    (hdo : client.Do (req0.HeaderAdd "x-api-key" env.MercuryToken) = .ok resp)
    (hread : resp.Body.err = none) :
    (ScrapeArticle env url client).1
        = (some (env.UnmarshalArticle resp.Body.data {}).1,
            (env.UnmarshalArticle resp.Body.data {}).2)
      ∧ ∀ (url1 : String) (client1 : Client) (req1 : OutRequest) (resp1 : HttpResponse),
          env.NewRequest "GET" (MercuryURL ++ url1) = .ok req1 →
          client1.Do (req1.HeaderAdd "x-api-key" env.MercuryToken) = .ok resp1 →
          resp1.Body.err = none →
          resp1.Body.data = resp.Body.data →
          (ScrapeArticle env url1 client1).1 = (ScrapeArticle env url client).1 := by
  have key : ∀ (url1 : String) (client1 : Client) (req1 : OutRequest) (resp1 : HttpResponse),
      env.NewRequest "GET" (MercuryURL ++ url1) = .ok req1 →
      client1.Do (req1.HeaderAdd "x-api-key" env.MercuryToken) = .ok resp1 →
      resp1.Body.err = none →
      (ScrapeArticle env url1 client1).1
        = (some (env.UnmarshalArticle resp1.Body.data {}).1,
            (env.UnmarshalArticle resp1.Body.data {}).2) := by
    intro url1 client1 req1 resp1 h1 h2 h3
    simp [ScrapeArticle, h1, h2, ReadAll, h3]
  refine ⟨key url client req0 resp hreq hdo hread, ?_⟩
  intro url1 client1 req1 resp1 h1 h2 h3 h4
  rw [key url1 client1 req1 resp1 h1 h2 h3, key url client req0 resp hreq hdo hread, h4]

/-- C8 at the scenario of the specification, the body with exactly the four
members answered with status 200, and at a body with two more members
answered with status 500 to another address: the same four values, no error. -/
theorem ScrapeArticle_is_decode_of_body_witness :
    (ScrapeArticle (stubEnv 200 articleBody) "u" (stubClient 200 articleBody)).1
        = (some { Excerpt := "e", Title := "t", URL := "u", DatePublished := "d" }, none)
      ∧ (ScrapeArticle (stubEnv 500 articleBodyExtra) "https://other/"
          (stubClient 500 articleBodyExtra)).1
        = (some { Excerpt := "e", Title := "t", URL := "u", DatePublished := "d" }, none) :=
  ⟨(ScrapeArticle_is_decode_of_body (stubEnv 200 articleBody) "u" (stubClient 200 articleBody)
      { Method := "GET", URL := "https://mercury.postlight.com/parser?url=u" }
      { StatusCode := 200, Body := { data := articleBody } }
      (by decide) (by rfl) (by rfl)).1.trans (by decide),
    (ScrapeArticle_is_decode_of_body (stubEnv 500 articleBodyExtra) "https://other/"
      (stubClient 500 articleBodyExtra)
      { Method := "GET", URL := "https://mercury.postlight.com/parser?url=https://other/" }
      { StatusCode := 500, Body := { data := articleBodyExtra } }
      (by decide) (by rfl) (by rfl)).1.trans (by decide)⟩

/-- `ScrapeArticle` hands out the record whatever the decode says: when the
body is read, the pointer returned is never nil, also next to an error. -/
theorem ScrapeArticle_decode_error_keeps_record (env : Env) (url : String) (client : Client)
    (req0 : OutRequest) (resp : HttpResponse) (a : ArticleResponse) (err : GoError)
    (hreq : env.NewRequest "GET" (MercuryURL ++ url) = .ok req0)
    (hdo : client.Do (req0.HeaderAdd "x-api-key" env.MercuryToken) = .ok resp)
    (hread : resp.Body.err = none)
    (hdec : env.UnmarshalArticle resp.Body.data {} = (a, some err)) :
    (ScrapeArticle env url client).1 = (some a, some err) := by
  simp [ScrapeArticle, hreq, hdo, ReadAll, hread, hdec]

/-- C9 fails on the code: for the upstream body `articleBodyMistyped`
(a title, and an excerpt that is a number) `ScrapeArticle` returns the decode
error together with a record, and the record is partially filled: the title
is stored, the excerpt is not. -/
theorem ScrapeArticle_partial_record_with_error :
    (ScrapeArticle (stubEnv 200 articleBodyMistyped) "u"
        (stubClient 200 articleBodyMistyped)).1
      = (some { Excerpt := "", Title := "t", URL := "", DatePublished := "" },
          some "json: cannot unmarshal number into Go struct field ArticleResponse.excerpt of type string") := by
  decide

/-- C10: when the input has a non-empty `v` and the GET on the injected client
fails with a transport error, `ScrapeYouTube` does not return: it panics with
that error, and so does `HandleYoutube` on such a request, with nothing
written to the response (no status 500). By contrast a panic has no other
origin, and each other failure is returned as an error value: a parse error,
a missing video id, a body read error, a decode error, an empty item list. -/
theorem ScrapeYouTube_transport_error_panics (env : Env) (rawUrl : String) (client : Client)
    (u : URL) (err : GoError)
    (hparse : env.Parse rawUrl = .ok u)
    (hv : u.Query.Get "v" ≠ "")
    (hget : client.Get (youtubeTarget env (u.Query.Get "v")) = .error err) :
    ScrapeYouTube env rawUrl client
        = (Outcome.panicked err, [Event.clientGet (youtubeTarget env (u.Query.Get "v"))])
      ∧ (∀ r : Request, r.URL.Query.Get "url" = rawUrl → rawUrl ≠ "" →
          env.urlfetchClient r = client →
          HandleYoutube env ResponseWriter.fresh r
            = (Handled.panicked err ResponseWriter.fresh,
                [Event.scrapeYouTube rawUrl,
                  Event.clientGet (youtubeTarget env (u.Query.Get "v"))]))
      ∧ (∀ (rawUrl1 : String) (client1 : Client) (e : GoError),
          (ScrapeYouTube env rawUrl1 client1).1 = Outcome.panicked e →
          ∃ u1 : URL, env.Parse rawUrl1 = .ok u1 ∧ u1.Query.Get "v" ≠ ""
            ∧ client1.Get (youtubeTarget env (u1.Query.Get "v")) = .error e)
      ∧ (∀ (rawUrl1 : String) (client1 : Client) (e : GoError),
          env.Parse rawUrl1 = .error e →
          (ScrapeYouTube env rawUrl1 client1).1 = Outcome.returned none (some e))
      ∧ (∀ (rawUrl1 : String) (client1 : Client) (u1 : URL),
          env.Parse rawUrl1 = .ok u1 → u1.Query.Get "v" = "" →
          (ScrapeYouTube env rawUrl1 client1).1
            = Outcome.returned none (some "Missing video ID"))
      ∧ (∀ (rawUrl1 : String) (client1 : Client) (u1 : URL) (resp1 : HttpResponse)
          (e : GoError),
          env.Parse rawUrl1 = .ok u1 → u1.Query.Get "v" ≠ "" →
          client1.Get (youtubeTarget env (u1.Query.Get "v")) = .ok resp1 →
          resp1.Body.err = some e →
          (ScrapeYouTube env rawUrl1 client1).1 = Outcome.returned none (some e))
      ∧ (∀ (rawUrl1 : String) (client1 : Client) (u1 : URL) (resp1 : HttpResponse)
          (g : GeneratedYoutubeResponse) (e : GoError),
          env.Parse rawUrl1 = .ok u1 → u1.Query.Get "v" ≠ "" →
          client1.Get (youtubeTarget env (u1.Query.Get "v")) = .ok resp1 →
          resp1.Body.err = none →
          env.UnmarshalYoutube resp1.Body.data {} = (g, some e) →
          (ScrapeYouTube env rawUrl1 client1).1 = Outcome.returned none (some e))
      ∧ (∀ (rawUrl1 : String) (client1 : Client) (u1 : URL) (resp1 : HttpResponse)
          (g : GeneratedYoutubeResponse),
          env.Parse rawUrl1 = .ok u1 → u1.Query.Get "v" ≠ "" →
          client1.Get (youtubeTarget env (u1.Query.Get "v")) = .ok resp1 →
          resp1.Body.err = none →
          env.UnmarshalYoutube resp1.Body.data {} = (g, none) →
          g.Items = [] →
          (ScrapeYouTube env rawUrl1 client1).1
            = Outcome.returned none (some "Could Not Find Video")) := by
  have hpanic : ScrapeYouTube env rawUrl client
      = (Outcome.panicked err, [Event.clientGet (youtubeTarget env (u.Query.Get "v"))]) := by
    simp [ScrapeYouTube, hparse, hv, hget]
  refine ⟨hpanic, ?_, ?_, ?_, ?_, ?_, ?_, ?_⟩
  · intro r hr hne hc
    subst hr
    subst hc
    simp [HandleYoutube, hne, hpanic]
  · intro rawUrl1 client1 e hs
    unfold ScrapeYouTube at hs
    cases hp : env.Parse rawUrl1 with
    | error e1 => simp [hp] at hs
    | ok u1 =>
      by_cases hv1 : u1.Query.Get "v" = ""
      · simp [hp, hv1] at hs
      · cases hg : client1.Get (youtubeTarget env (u1.Query.Get "v")) with
        | error e1 =>
          simp [hp, hv1, hg] at hs
          subst hs
          exact ⟨u1, rfl, hv1, hg⟩
        | ok resp1 =>
          cases hr : resp1.Body.err with
          | some e1 => simp [hp, hv1, hg, ReadAll, hr] at hs
          | none =>
            cases hd : env.UnmarshalYoutube resp1.Body.data {} with
            | mk g1 e1 =>
              cases e1 with
              | some e2 => simp [hp, hv1, hg, ReadAll, hr, hd] at hs
              | none =>
                cases hi : g1.Items with
                | nil => simp [hp, hv1, hg, ReadAll, hr, hd, hi] at hs
                | cons item0 rest => simp [hp, hv1, hg, ReadAll, hr, hd, hi] at hs
  · intro rawUrl1 client1 e hp
    simp [ScrapeYouTube, hp]
  · intro rawUrl1 client1 u1 hp hv1
    simp [ScrapeYouTube, hp, hv1]
  · intro rawUrl1 client1 u1 resp1 e hp hv1 hg hr
    simp [ScrapeYouTube, hp, hv1, hg, ReadAll, hr]
  · intro rawUrl1 client1 u1 resp1 g e hp hv1 hg hr hd
    simp [ScrapeYouTube, hp, hv1, hg, ReadAll, hr, hd]
  · intro rawUrl1 client1 u1 resp1 g hp hv1 hg hr hd hi
    simp [ScrapeYouTube, hp, hv1, hg, ReadAll, hr, hd, hi]

/-- C10 at `/youtube?url=https://x/?v=abc` with an upstream that cannot be
reached: the fetcher and the handler panic and the writer is untouched; with
an upstream whose body breaks off, or is no JSON, the error is returned. -/
theorem ScrapeYouTube_transport_error_panics_witness :
    ScrapeYouTube (failingEnv "urlfetch: DEADLINE_EXCEEDED") "https://x/?v=abc"
        (failingClient "urlfetch: DEADLINE_EXCEEDED")
      = (Outcome.panicked "urlfetch: DEADLINE_EXCEEDED",
          [Event.clientGet
            "https://www.googleapis.com/youtube/v3/videos?part=snippet&id=abc&key=youtube-token"])
    ∧ HandleYoutube (failingEnv "urlfetch: DEADLINE_EXCEEDED") ResponseWriter.fresh
        (requestWith [("url", ["https://x/?v=abc"])])
      = (Handled.panicked "urlfetch: DEADLINE_EXCEEDED"
            { Header := [], Status := none, Body := "" },
          [Event.scrapeYouTube "https://x/?v=abc",
            Event.clientGet
              "https://www.googleapis.com/youtube/v3/videos?part=snippet&id=abc&key=youtube-token"])
    ∧ (ScrapeYouTube (failingEnv "urlfetch: DEADLINE_EXCEEDED") "https://x/?v=abc"
        (brokenBodyClient 200 "\x7b\"ite" "unexpected EOF")).1
      = Outcome.returned none (some "unexpected EOF")
    ∧ (ScrapeYouTube (failingEnv "urlfetch: DEADLINE_EXCEEDED") "https://x/?v=abc"
        (stubClient 200 "Not Found")).1
      = Outcome.returned none
          (some "invalid character 'N' looking for beginning of value") :=
  ⟨(ScrapeYouTube_transport_error_panics (failingEnv "urlfetch: DEADLINE_EXCEEDED")
      "https://x/?v=abc" (failingClient "urlfetch: DEADLINE_EXCEEDED")
      { Query := [("v", ["abc"])] } "urlfetch: DEADLINE_EXCEEDED"
      (by decide) (by decide) (by rfl)).1.trans (by decide),
    ((ScrapeYouTube_transport_error_panics (failingEnv "urlfetch: DEADLINE_EXCEEDED")
      "https://x/?v=abc" (failingClient "urlfetch: DEADLINE_EXCEEDED")
      { Query := [("v", ["abc"])] } "urlfetch: DEADLINE_EXCEEDED"
      (by decide) (by decide) (by rfl)).2.1
      (requestWith [("url", ["https://x/?v=abc"])]) (by decide) (by decide) (by rfl)).trans
      (by decide),
    (ScrapeYouTube_transport_error_panics (failingEnv "urlfetch: DEADLINE_EXCEEDED")
      "https://x/?v=abc" (failingClient "urlfetch: DEADLINE_EXCEEDED")
      { Query := [("v", ["abc"])] } "urlfetch: DEADLINE_EXCEEDED"
      (by decide) (by decide) (by rfl)).2.2.2.2.2.1
      "https://x/?v=abc" (brokenBodyClient 200 "\x7b\"ite" "unexpected EOF")
      { Query := [("v", ["abc"])] }
      { StatusCode := 200, Body := { data := "\x7b\"ite", err := some "unexpected EOF" } }
      "unexpected EOF" (by decide) (by decide) (by rfl) (by rfl),
    (ScrapeYouTube_transport_error_panics (failingEnv "urlfetch: DEADLINE_EXCEEDED")
      "https://x/?v=abc" (failingClient "urlfetch: DEADLINE_EXCEEDED")
      { Query := [("v", ["abc"])] } "urlfetch: DEADLINE_EXCEEDED"
      (by decide) (by decide) (by rfl)).2.2.2.2.2.2.1
      "https://x/?v=abc" (stubClient 200 "Not Found")
      { Query := [("v", ["abc"])] }
      { StatusCode := 200, Body := { data := "Not Found" } }
      {} "invalid character 'N' looking for beginning of value"
      (by decide) (by decide) (by rfl) (by rfl) (by decide)⟩

end Composition
